import Mathlib

/-!
# Rcpp11: sugar product nodes, void method dispatch, environment facade

A shallow embedding of three headers of the library:

* `inst/include/Rcpp/sugar/operators/times.h`: the lazy element-wise product nodes;
* `inst/include/Rcpp/module/generated_void_method_invoke.h`: the dispatchers of arity 0..65;
* `inst/include/Rcpp/Environment.h`: the handle over a scope of the host runtime.

The host runtime (its values, its scope primitives, its evaluator) is not part of the
library. It is modelled here only as far as the library calls into it, and every such
definition says so in its comment.
-/

/-- Equality of the outcomes of a fallible call is decidable when it is so for its errors
and its results. -/
instance instDecidableEqExcept {ε α : Type} [DecidableEq ε] [DecidableEq α] :
    DecidableEq (Except ε α)
  | Except.ok a, Except.ok b =>
    if h : a = b then isTrue (by rw [h]) else isFalse (fun e => h (Except.ok.inj e))
  | Except.error a, Except.error b =>
    if h : a = b then isTrue (by rw [h]) else isFalse (fun e => h (Except.error.inj e))
  | Except.ok _, Except.error _ => isFalse (fun e => Except.noConfusion e)
  | Except.error _, Except.ok _ => isFalse (fun e => Except.noConfusion e)

/-- Equality of the results of effect-free computations is decidable when it is so for
their values. -/
instance instDecidableEqId {α : Type} [DecidableEq α] : DecidableEq (Id α) :=
  inferInstanceAs (DecidableEq α)

namespace Rcpp

/-! ## Element type of integer vectors -/

namespace traits

/-- Modelled from the spec: the NA sentinel of the integer element type, a reserved value of
the type's domain; for a 32-bit int the host runtime reserves INT_MIN. -/
def NA_INTEGER : Int := -2147483648

/-- Modelled from the spec: `traits::is_na<INTSXP>(x)`, the test for the NA sentinel. -/
def is_na (x : Int) : Bool := x == NA_INTEGER

/-- The value of a 32-bit two's complement int holding the mathematical integer `x`
modulo 2^32. -/
def wrap32 (x : Int) : Int := (x + 2147483648) % 4294967296 - 2147483648

/-- The machine product `a * b` of two `STORAGE = int` values, taken modulo 2^32. -/
def times (a b : Int) : Int := wrap32 (a * b)

end traits

/-! ## Sugar: `times.h` -/

/-- A vector expression as the product nodes see it (`VectorBase<INTSXP,NA,T>` through its
extractor): the compile-time flag `NA`, `size()` and `operator[](int)`. The element access
runs in a monad `m`, so that an operand whose access has an effect can be plugged in; a plain
vector uses `m = Id`. -/
structure VectorBase (m : Type → Type) where
  NA : Bool
  size : Int
  get : Int → m Int

namespace sugar

open traits

variable {m : Type → Type} [Monad m]

/-- The method `Times_Vector_Vector<RTYPE,LHS_NA,LHS_T,RHS_NA,RHS_T>::operator[]`, the generic class
(times.h lines 21-26). -/
def Times_Vector_Vector.index (lhs rhs : VectorBase m) (i : Int) : m Int := do
  let lhs_ ← lhs.get i
  if is_na lhs_ then return lhs_
  let rhs_ ← rhs.get i
  return (if is_na rhs_ then rhs_ else times lhs_ rhs_)

/-- The method `Times_Vector_Vector<RTYPE,false,LHS_T,RHS_NA,RHS_T>::operator[]`, the specialization
for `LHS_NA = false` (times.h lines 75-79). -/
def Times_Vector_Vector.index_lhs_nona (lhs rhs : VectorBase m) (i : Int) : m Int := do
  let rhs_ ← rhs.get i
  if is_na rhs_ then return rhs_
  let l ← lhs.get i
  return times l rhs_

/-- The method `Times_Vector_Vector<RTYPE,LHS_NA,LHS_T,false,RHS_T>::operator[]`, the specialization
for `RHS_NA = false` (times.h lines 127-131). -/
def Times_Vector_Vector.index_rhs_nona (lhs rhs : VectorBase m) (i : Int) : m Int := do
  let lhs_ ← lhs.get i
  if is_na lhs_ then return lhs_
  let r ← rhs.get i
  return times lhs_ r

/-- The method `Times_Vector_Vector<RTYPE,false,LHS_T,false,RHS_T>::operator[]`, the specialization
for `LHS_NA = false` and `RHS_NA = false` (times.h lines 178-180). -/
def Times_Vector_Vector.index_nona (lhs rhs : VectorBase m) (i : Int) : m Int := do
  let l ← lhs.get i
  let r ← rhs.get i
  return times l r

/-- The method `Times_Vector_Vector<...>::size()`: the same in every specialization,
`lhs.size()`. -/
def Times_Vector_Vector.size (lhs _rhs : VectorBase m) : Int := lhs.size

/-- The reference definition of the element of a product, in the words of the claim:
`a[i]` if `a[i]` is NA; otherwise `b[i]` if `b[i]` is NA; otherwise the machine product. -/
def times_reference (a b : Int → Int) (i : Int) : Int :=
  if a i = NA_INTEGER then a i
  else if b i = NA_INTEGER then b i
  else times (a i) (b i)

/-- An integer vector held in memory (an `IntegerVector` leaf), NA-flagged: its elements
are read without effect. -/
def IntegerVector (xs : List Int) : VectorBase Id :=
  { NA := true, size := xs.length, get := fun i => xs.getD i.toNat 0 }

/-- The product `lhs * rhs` of two vector expressions, `operator*` of times.h lines 447-462:
the node `Times_Vector_Vector<RTYPE,LHS_NA,LHS_T,RHS_NA,RHS_T>` over the two operands, seen
as a vector expression again. The flags of the operands select the class: the generic one,
or one of its three partial specializations; the node is NA-flagged
(`SugarVectorExpression<RTYPE,true,...>`) unless both operands are flagged NA-free. -/
def operator_times_vector_vector (lhs rhs : VectorBase m) : VectorBase m :=
  match lhs.NA, rhs.NA with
  | true, true =>
    { NA := true, size := Times_Vector_Vector.size lhs rhs,
      get := Times_Vector_Vector.index lhs rhs }
  | false, true =>
    { NA := true, size := Times_Vector_Vector.size lhs rhs,
      get := Times_Vector_Vector.index_lhs_nona lhs rhs }
  | true, false =>
    { NA := true, size := Times_Vector_Vector.size lhs rhs,
      get := Times_Vector_Vector.index_rhs_nona lhs rhs }
  | false, false =>
    { NA := false, size := Times_Vector_Vector.size lhs rhs,
      get := Times_Vector_Vector.index_nona lhs rhs }

/-- The members of a node `Times_Vector_Primitive<RTYPE,NA,T>` (lines 234-237 and
280-283): the vector operand, the scalar, and whether the scalar is NA. -/
structure Times_Vector_Primitive (m : Type → Type) where
  lhs : VectorBase m
  rhs : Int
  rhs_na : Bool

/-- The constructor `Times_Vector_Primitive( lhs_, rhs_ )` (lines 222-224 and 271-272): it
tests the scalar once, `rhs_na( is_na<RTYPE>(rhs_) )`. -/
def Times_Vector_Primitive.ctor (lhs_ : VectorBase m) (rhs_ : Int) :
    Times_Vector_Primitive m :=
  { lhs := lhs_, rhs := rhs_, rhs_na := is_na rhs_ }

/-- The method `Times_Vector_Primitive<RTYPE,NA,T>::operator[]`, the generic class (lines
226-230). -/
def Times_Vector_Primitive.index (node : Times_Vector_Primitive m) (i : Int) : m Int := do
  if node.rhs_na then return node.rhs
  let x ← node.lhs.get i
  return (if is_na x then x else times x node.rhs)

/-- The method `Times_Vector_Primitive<RTYPE,false,T>::operator[]`, the specialization for
`NA = false` (lines 274-276): `rhs_na ? rhs : (rhs * lhs[i])`. -/
def Times_Vector_Primitive.index_nona (node : Times_Vector_Primitive m) (i : Int) :
    m Int := do
  if node.rhs_na then return node.rhs
  let x ← node.lhs.get i
  return times node.rhs x

/-- The method `Times_Vector_Primitive<...>::size()` (lines 232 and 278). -/
def Times_Vector_Primitive.size (node : Times_Vector_Primitive m) : Int := node.lhs.size

/-- The node `Times_Vector_Primitive<RTYPE,NA,T>` seen as a vector expression: the flag `NA`
of the vector operand selects the generic class (NA-flagged) or its specialization (flagged
NA-free). -/
def Times_Vector_Primitive.toVectorBase (node : Times_Vector_Primitive m) : VectorBase m :=
  match node.lhs.NA with
  | true => { NA := true, size := node.size, get := node.index }
  | false => { NA := false, size := node.size, get := node.index_nona }

/-- The members of a node `Times_Vector_Primitive_nona<RTYPE,NA,T>` (lines 332-335 and
378-381): the vector operand and the scalar, which the caller declares not to be NA. -/
structure Times_Vector_Primitive_nona (m : Type → Type) where
  lhs : VectorBase m
  rhs : Int

/-- The method `Times_Vector_Primitive_nona<RTYPE,NA,T>::operator[]`, the generic class
(lines 325-328). -/
def Times_Vector_Primitive_nona.index (node : Times_Vector_Primitive_nona m) (i : Int) :
    m Int := do
  let x ← node.lhs.get i
  return (if is_na x then x else times x node.rhs)

/-- The method `Times_Vector_Primitive_nona<RTYPE,false,T>::operator[]`, the specialization
for `NA = false` (lines 372-374). -/
def Times_Vector_Primitive_nona.index_nona (node : Times_Vector_Primitive_nona m)
    (i : Int) : m Int := do
  let x ← node.lhs.get i
  return times node.rhs x

/-- The method `Times_Vector_Primitive_nona<...>::size()` (lines 330 and 376). -/
def Times_Vector_Primitive_nona.size (node : Times_Vector_Primitive_nona m) : Int :=
  node.lhs.size

/-- The node `Times_Vector_Primitive_nona<RTYPE,NA,T>` seen as a vector expression. -/
def Times_Vector_Primitive_nona.toVectorBase (node : Times_Vector_Primitive_nona m) :
    VectorBase m :=
  match node.lhs.NA with
  | true => { NA := true, size := node.size, get := node.index }
  | false => { NA := false, size := node.size, get := node.index_nona }

/-- The product `lhs * rhs` of a vector and a scalar, `operator*` of lines 407-414. -/
def operator_times_vector_primitive (lhs : VectorBase m) (rhs : Int) :
    Times_Vector_Primitive m :=
  Times_Vector_Primitive.ctor lhs rhs

/-- The product `rhs * lhs` of a scalar and a vector, `operator*` of lines 417-424. -/
def operator_times_primitive_vector (rhs : Int) (lhs : VectorBase m) :
    Times_Vector_Primitive m :=
  Times_Vector_Primitive.ctor lhs rhs

/-- The product `lhs * rhs` of a vector and a scalar wrapped in `NonaPrimitive`, `operator*`
of lines 428-435. -/
def operator_times_vector_nona (lhs : VectorBase m) (rhs : Int) :
    Times_Vector_Primitive_nona m :=
  { lhs := lhs, rhs := rhs }

/-- The product `rhs * lhs` of a scalar wrapped in `NonaPrimitive` and a vector, `operator*`
of lines 438-444. -/
def operator_times_nona_vector (rhs : Int) (lhs : VectorBase m) :
    Times_Vector_Primitive_nona m :=
  { lhs := lhs, rhs := rhs }

/-! ### Observing which elements a node reads -/

/-- The two operands of a node. -/
inductive Operand where
  | lhs
  | rhs
  deriving DecidableEq, Repr

/-- A computation that records, in order, every call of an operand's `operator[]`: its
value and the accesses made, each with the operand and the index read. -/
structure Logged (α : Type) where
  value : α
  log : List (Operand × Int)

/-- Sequencing of logged computations: the accesses of the first, then those of the
second. -/
instance instMonadLogged : Monad Logged where
  pure a := { value := a, log := [] }
  bind x f := { value := (f x.value).value, log := x.log ++ (f x.value).log }

/-- An integer vector with the elements `elems` used as the operand `side` of a node, whose
`operator[]` records each call. -/
def observed (side : Operand) (NA : Bool) (size : Int) (elems : Int → Int) :
    VectorBase Logged :=
  { NA := NA, size := size, get := fun i => { value := elems i, log := [(side, i)] } }

/-! ### The classes for `RTYPE = REALSXP` -/

/-- Modelled from the spec: an element of a double vector as far as NA is concerned: the NA
sentinel, or some other double. The numeric value of a double is not modelled. -/
inductive Double where
  | NA
  | other
  deriving DecidableEq, Repr

/-- Modelled from the spec: the product of two doubles as far as NA is concerned: the
floating-point product carries the NA of an operand to the result. -/
def Double.times : Double → Double → Double
  | Double.NA, _ => Double.NA
  | _, Double.NA => Double.NA
  | Double.other, Double.other => Double.other

/-- A vector expression over doubles, `VectorBase<REALSXP,NA,T>`. -/
structure RealVectorBase (m : Type → Type) where
  NA : Bool
  size : Int
  get : Int → m Double

/-- The method `Times_Vector_Vector<REALSXP,...>::operator[]`: the four classes for doubles
(lines 49-51, 101-103, 153-155 and 202-204) have the same body, `lhs[i] * rhs[i]`, with no
test for NA. -/
def Times_Vector_Vector_REALSXP.index (lhs rhs : RealVectorBase m) (i : Int) : m Double := do
  let l ← lhs.get i
  let r ← rhs.get i
  return Double.times l r

/-- The method `Times_Vector_Vector<REALSXP,...>::size()` (lines 53, 105, 157 and 206). -/
def Times_Vector_Vector_REALSXP.size (lhs _rhs : RealVectorBase m) : Int := lhs.size

/-- A double vector with the elements `elems` used as the operand `side` of a node, whose
`operator[]` records each call. -/
def observedReal (side : Operand) (NA : Bool) (size : Int) (elems : Int → Double) :
    RealVectorBase Logged :=
  { NA := NA, size := size, get := fun i => { value := elems i, log := [(side, i)] } }

end sugar

/-! ## Module dispatch: `generated_void_method_invoke.h` -/

/-- What a dispatch does, in the order it does it: the construction of the conversion wrapper
`xk( args[k] )` and the call `(object->*Method)( x1, ..., xN )` with the values passed. -/
inductive Event (Val : Type) where
  | convert (k : Nat)
  | invoke (xs : List Val)
  deriving DecidableEq, Repr

/-- The state after a call of a dispatcher: how the call ended (normally, or with the
exception of a conversion), the state of the bound object, and what was done. -/
structure Outcome (Err Obj Val : Type) where
  result : Except Err Unit
  object : Obj
  events : List (Event Val)

/-- The argument lists of the calls of the bound method recorded in a list of events. -/
def invocations {Val : Type} : List (Event Val) → List (List Val)
  | [] => []
  | Event.convert _ :: es => invocations es
  | Event.invoke xs :: es => xs :: invocations es

/-- The slots whose conversion was started, in the order in which they were started. -/
def conversions {Val : Type} : List (Event Val) → List Nat
  | [] => []
  | Event.convert k :: es => k :: conversions es
  | Event.invoke _ :: es => conversions es

section dispatch

variable {SEXP Err Obj Val : Type}

/-- The declarations `input_parameter<Uk>::type xk( args[k] ) ;` for `k, k+1, ...`, `n` of
them, in the order of the header. `input_parameter k` stands for the construction of the
wrapper of the `k`-th declared parameter type `Uk`; the wrapper type is not declared in this
header. Modelled from the spec: constructing the wrapper converts the boxed value and can
fail with a type error, which ends the dispatch. -/
def input_parameters (input_parameter : Nat → SEXP → Except Err Val) (args : Nat → SEXP) :
    Nat → Nat → Except Err (List Val) × List (Event Val)
  | _, 0 => (Except.ok [], [])
  | k, n + 1 =>
    match input_parameter k (args k) with
    | Except.error e => (Except.error e, [Event.convert k])
    | Except.ok x =>
      match input_parameters input_parameter args (k + 1) n with
      | (Except.ok xs, es) => (Except.ok (x :: xs), Event.convert k :: es)
      | (Except.error e, es) => (Except.error e, Event.convert k :: es)

/-- The number of parameters of the member function type that the overload of arity `N`
declares for its parameter `Method`. The header writes `void (Class::*Method)(void)` for
`N = 0` (line 23) and `void (Class::*Method)()` for every `N` from 1 to 65 (lines 29, 36,
44, ...): a member function with no parameter, in all 66 overloads. -/
def Method_parameters (_N : Nat) : Nat := 0

/-- Whether the overload of arity `N` can be instantiated. Its body ends with the call
`(object->*Method)( x1, ..., xN )`, which passes `N` arguments, and a call through a pointer
to member function is well-formed only when it passes as many arguments as the type of the
pointer declares parameters. -/
def instantiable (N : Nat) : Bool := N == Method_parameters N

/-- The overload of `void_method_invoke` with `N` parameter types `U1, ..., UN` (the header
writes out `N = 0, ..., 65`): the `N` declarations `xk( args[k] )` for `k = 1, ..., N`, then
the call of `Method` on `object` with `x1, ..., xN`. `Method` is the bound member function
as the header declares it, a member function with no parameter, acting on the state of the
object. The result is `none` when the overload cannot be instantiated, so that no call of it
exists in any program; otherwise it is the outcome of the call. -/
def void_method_invoke (N : Nat) (input_parameter : Nat → SEXP → Except Err Val)
    (Method : Obj → Obj) (object : Obj) (args : Nat → SEXP) :
    Option (Outcome Err Obj Val) :=
  if instantiable N then
    match input_parameters input_parameter args 1 N with
    | (Except.error e, es) =>
      some { result := Except.error e, object := object, events := es }
    | (Except.ok xs, es) =>
      some { result := Except.ok (), object := Method object,
             events := es ++ [Event.invoke xs] }
  else none

/-- The overload of arity 0 as the header writes it (lines 22-25): no slot is read. -/
def void_method_invoke_0 (Method : Obj → Obj) (object : Obj) (_args : Nat → SEXP) :
    Outcome Err Obj Val :=
  { result := Except.ok (), object := Method object, events := [Event.invoke []] }

end dispatch

/-! ### The end-to-end scenarios of the dispatch -/

namespace scenario

/-- Modelled from the spec: a boxed value of the host runtime, as far as the scenarios need
it: the dispatch metadata of slot 0, or a boxed integer, double or string. A double is given
by its exact value. -/
inductive Boxed where
  | metadata
  | int (n : Int)
  | real (x : Rat)
  | str (s : String)
  deriving DecidableEq

/-- A statically typed value, as the bound method receives it. -/
inductive Typed where
  | int (n : Int)
  | real (x : Rat)
  | str (s : String)
  deriving DecidableEq

/-- The declared parameter types of the scenarios. -/
inductive ParamType where
  | int
  | real
  | str
  deriving DecidableEq

/-- The type error of a conversion. -/
inductive ConvError where
  | not_compatible (k : Nat)
  deriving DecidableEq

/-- Modelled from the spec: the conversion of the boxed value of slot `k` to a declared
parameter type; a box of another type is unconvertible and gives a type error. -/
def convert (k : Nat) : ParamType → Boxed → Except ConvError Typed
  | ParamType.int, Boxed.int n => Except.ok (Typed.int n)
  | ParamType.real, Boxed.real x => Except.ok (Typed.real x)
  | ParamType.str, Boxed.str s => Except.ok (Typed.str s)
  | _, _ => Except.error (ConvError.not_compatible k)

/-- The wrappers of a method with the declared parameter types `sig`: the `k`-th (from 1)
converts to the `k`-th type of `sig`. -/
def wrappers (sig : List ParamType) (k : Nat) (x : Boxed) : Except ConvError Typed :=
  match sig.get? (k - 1) with
  | some t => convert k t x
  | none => Except.error (ConvError.not_compatible k)

/-- An argument array given by its slots; a slot beyond the array is never read in the
scenarios and reads as the metadata value. -/
def array (slots : List Boxed) (k : Nat) : Boxed := slots.getD k Boxed.metadata

/-- A bound method of the kind that the declared type of `Method` accepts, with no
parameter and a visible side effect: it counts the executions of its body in the state of
its object. -/
def count (object : Nat) : Nat := object + 1

end scenario

/-! ## Environment facade: `Environment.h`

The handle holds one reference `data` to a scope of the host runtime. The scope, its
bindings and the primitives that read and change it belong to the host runtime; the
definitions of this part that model them say so. The methods of the handle follow the
header. A method that changes the scope returns the scope after the call next to its
result, also when it throws. -/

/-- Modelled from the spec: a boxed value of the host runtime, as far as the facade
distinguishes values: the nil value `R_NilValue`, plain values, and a deferred value (a
promise, `PROMSXP`), given with the value that evaluating it yields. The marker
`R_UnboundValue` is not a value that a binding holds; a lookup that finds nothing returns
`none`. -/
inductive SEXP where
  | nil
  | int (n : Int)
  | str (s : String)
  | promise (value : SEXP)
  deriving DecidableEq, Repr

/-- The type tags of the values of the model. -/
inductive SEXPTYPE where
  | NILSXP
  | INTSXP
  | STRSXP
  | PROMSXP
  deriving DecidableEq, Repr

/-- Modelled from the spec: `TYPEOF(x)`, the type tag of a boxed value. -/
def TYPEOF : SEXP → SEXPTYPE
  | SEXP.nil => SEXPTYPE.NILSXP
  | SEXP.int _ => SEXPTYPE.INTSXP
  | SEXP.str _ => SEXPTYPE.STRSXP
  | SEXP.promise _ => SEXPTYPE.PROMSXP

/-- Modelled from the spec: one binding of a scope without its name: the value bound, the
flag of a locked binding and the flag of an active binding. The function behind an active
binding belongs to the evaluator and is not modelled; the flag is only recorded. -/
structure Cell where
  value : SEXP
  locked : Bool
  active : Bool
  deriving DecidableEq, Repr

/-- Modelled from the spec: the bindings of one scope, name to binding, names unique. -/
abbrev Frame := String → Option Cell

/-- Modelled from the spec: a scope of the host runtime with its chain of parents: the empty
scope `R_EmptyEnv`, which has no binding and no parent, or a scope with its own frame, the
flag that locks the scope as a whole (no binding is added or removed), and the enclosing
scope `ENCLOS`. -/
inductive Env where
  | empty
  | scope (frame : Frame) (locked : Bool) (enclos : Env)

/-- The errors of the facade: the typed exceptions of `Environment.h`, and `r_error`, an error
that the host runtime raises by itself inside one of its primitives. -/
inductive Error where
  | binding_not_found (name : String)
  | binding_is_locked (name : String)
  | no_such_binding (name : String)
  | r_error (message : String)
  deriving DecidableEq, Repr

/-- The own frame of a scope; the empty scope binds nothing. -/
def Env.frame : Env → Frame
  | Env.empty => fun _ => none
  | Env.scope frame _ _ => frame

/-- The frames of the chain of a scope: its own, then those of its parents, nearest
first. -/
def Env.chain : Env → List Frame
  | Env.empty => []
  | Env.scope frame _ enclos => frame :: Env.chain enclos

/-- Modelled from the spec: `Rf_eval(x, env)` on the values of the model: evaluating a promise
yields its value, any other value of the model is a constant. -/
def Rf_eval (x : SEXP) (_env : Env) : SEXP :=
  match x with
  | SEXP.promise value => value
  | x => x

/-- Modelled from the spec: find-variable-in-frame, `Rf_findVarInFrame(env, sym)`: the value
bound in the own frame of the scope, `none` for `R_UnboundValue`. -/
def Rf_findVarInFrame : Env → String → Option SEXP
  | Env.empty, _ => none
  | Env.scope frame _ _, name =>
    match frame name with
    | some c => some c.value
    | none => none

/-- Modelled from the spec: find-variable-with-parent-search, `Rf_findVar(sym, env)`: the
value bound in the first scope of the chain that binds the name. -/
def Rf_findVar (name : String) : Env → Option SEXP
  | Env.empty => none
  | Env.scope frame _ enclos =>
    match frame name with
    | some c => some c.value
    | none => Rf_findVar name enclos

/-- Modelled from the spec: define-variable, `Rf_defineVar(sym, value, env)`: sets the value
of the binding of the own frame, or adds an unlocked binding. The host runtime refuses, with
its own error, to assign in the empty scope, to change a locked binding and to add a binding
to a scope that is locked as a whole. -/
def Rf_defineVar (name : String) (value : SEXP) : Env → Except Error Env
  | Env.empty => Except.error (Error.r_error "cannot assign values in the empty environment")
  | Env.scope frame locked enclos =>
    match frame name with
    | some c =>
      if c.locked then
        Except.error (Error.r_error "cannot change value of locked binding")
      else
        Except.ok (Env.scope (Function.update frame name (some { c with value := value }))
          locked enclos)
    | none =>
      if locked then
        Except.error (Error.r_error "cannot add bindings to a locked environment")
      else
        Except.ok (Env.scope
          (Function.update frame name (some { value := value, locked := false, active := false }))
          locked enclos)

/-- Modelled from the spec: lock or unlock one binding, `R_LockBinding(sym, env)` for
`flag = true` and `R_unLockBinding(sym, env)` for `flag = false`; the host runtime raises
its own error when the own frame has no such binding. -/
def R_setBindingLock (flag : Bool) (name : String) : Env → Except Error Env
  | Env.empty => Except.error (Error.r_error "no binding")
  | Env.scope frame locked enclos =>
    match frame name with
    | some c =>
      Except.ok (Env.scope (Function.update frame name (some { c with locked := flag }))
        locked enclos)
    | none => Except.error (Error.r_error "no binding")

/-- Modelled from the spec: `R_LockBinding(sym, env)`. -/
def R_LockBinding (name : String) (env : Env) : Except Error Env :=
  R_setBindingLock true name env

/-- Modelled from the spec: `R_unLockBinding(sym, env)`. -/
def R_unLockBinding (name : String) (env : Env) : Except Error Env :=
  R_setBindingLock false name env

/-- Modelled from the spec: query-is-locked, `R_BindingIsLocked(sym, env)`. -/
def R_BindingIsLocked (name : String) (env : Env) : Except Error Bool :=
  match env.frame name with
  | some c => Except.ok c.locked
  | none => Except.error (Error.r_error "no binding")

/-- Modelled from the spec: `R_BindingIsActive(sym, env)`. -/
def R_BindingIsActive (name : String) (env : Env) : Except Error Bool :=
  match env.frame name with
  | some c => Except.ok c.active
  | none => Except.error (Error.r_error "no binding")

/-- Modelled from the spec: lock the scope as a whole, `R_LockEnvironment(env, bindings)`,
and with `bindings` also every binding of its frame. -/
def R_LockEnvironment (env : Env) (bindings : Bool) : Env :=
  match env with
  | Env.empty => Env.empty
  | Env.scope frame _ enclos =>
    Env.scope
      (fun n => if bindings then (frame n).map (fun c => { c with locked := true }) else frame n)
      true enclos

/-- Modelled from the spec: `R_EnvironmentIsLocked(env)`. -/
def R_EnvironmentIsLocked : Env → Bool
  | Env.empty => false
  | Env.scope _ locked _ => locked

/-- Modelled from the spec: the evaluator call `.Internal(remove(name, env, FALSE))`: with
`inherits = FALSE` it removes the binding from the own frame of `env` only; the host runtime
refuses, with its own error, to remove a binding from a scope that is locked as a whole. -/
def R_remove (name : String) : Env → Except Error Env
  | Env.empty => Except.ok Env.empty
  | Env.scope frame locked enclos =>
    if locked then
      Except.error (Error.r_error "cannot remove bindings from a locked environment")
    else
      Except.ok (Env.scope (Function.update frame name none) locked enclos)

namespace Environment_Impl

/-- The method `Environment_Impl::exists` (lines 127-130): `res != R_UnboundValue`. -/
def exists_ (data : Env) (name : String) : Bool :=
  match Rf_findVarInFrame data name with
  | none => false
  | some _ => true

/-- The method `Environment_Impl::get` (lines 88-98). -/
def get (data : Env) (name : String) : Except Error SEXP :=
  match Rf_findVarInFrame data name with
  | none => Except.ok SEXP.nil
  | some res =>
    if TYPEOF res = SEXPTYPE.PROMSXP then Except.ok (Rf_eval res data) else Except.ok res

/-- The method `Environment_Impl::find` (lines 107-117). -/
def find (data : Env) (name : String) : Except Error SEXP :=
  match Rf_findVar name data with
  | none => Except.error (Error.binding_not_found name)
  | some res =>
    if TYPEOF res = SEXPTYPE.PROMSXP then Except.ok (Rf_eval res data) else Except.ok res

/-- The method `Environment_Impl::bindingIsLocked` (lines 234-237). -/
def bindingIsLocked (data : Env) (name : String) : Except Error Bool :=
  if !exists_ data name then Except.error (Error.no_such_binding name)
  else R_BindingIsLocked name data

/-- The method `Environment_Impl::bindingIsActive` (lines 248-251). -/
def bindingIsActive (data : Env) (name : String) : Except Error Bool :=
  if !exists_ data name then Except.error (Error.no_such_binding name)
  else R_BindingIsActive name data

/-- The method `Environment_Impl::assign` (lines 143-147). The condition
`exists( name) && bindingIsLocked(name)` calls `bindingIsLocked` only when `exists` is
true. -/
def assign (data : Env) (name : String) (x : SEXP) : Except Error Bool × Env :=
  match (if exists_ data name then bindingIsLocked data name else Except.ok false) with
  | Except.error e => (Except.error e, data)
  | Except.ok true => (Except.error (Error.binding_is_locked name), data)
  | Except.ok false =>
    match Rf_defineVar name x data with
    | Except.error e => (Except.error e, data)
    | Except.ok data1 => (Except.ok true, data1)

/-- The method `Environment_Impl::isLocked` (lines 166-168). -/
def isLocked (data : Env) : Bool := R_EnvironmentIsLocked data

/-- The method `Environment_Impl::remove` (lines 173-193). -/
def remove (data : Env) (name : String) : Except Error Bool × Env :=
  if exists_ data name then
    match bindingIsLocked data name with
    | Except.error e => (Except.error e, data)
    | Except.ok true => (Except.error (Error.binding_is_locked name), data)
    | Except.ok false =>
      match R_remove name data with
      | Except.error e => (Except.error e, data)
      | Except.ok data1 => (Except.ok true, data1)
  else (Except.error (Error.no_such_binding name), data)

/-- The method `Environment_Impl::lock` (lines 200-202). -/
def lock (data : Env) (bindings : Bool) : Unit × Env :=
  ((), R_LockEnvironment data bindings)

/-- The method `Environment_Impl::lockBinding` (lines 210-213). -/
def lockBinding (data : Env) (name : String) : Except Error Unit × Env :=
  if !exists_ data name then (Except.error (Error.no_such_binding name), data)
  else
    match R_LockBinding name data with
    | Except.error e => (Except.error e, data)
    | Except.ok data1 => (Except.ok (), data1)

/-- The method `Environment_Impl::unlockBinding` (lines 221-224). -/
def unlockBinding (data : Env) (name : String) : Except Error Unit × Env :=
  if !exists_ data name then (Except.error (Error.no_such_binding name), data)
  else
    match R_unLockBinding name data with
    | Except.error e => (Except.error e, data)
    | Except.ok data1 => (Except.ok (), data1)

end Environment_Impl

/-! ### Scopes of the examples -/

namespace scopes

/-- A frame with no binding. -/
def noBindings : Frame := fun _ => none

/-- A fresh, unlocked scope with no binding whose parent is the empty scope. -/
def fresh : Env := Env.scope noBindings false Env.empty

/-- A scope that binds `a` to 1, unlocked, with parent the empty scope. -/
def one : Env :=
  Env.scope (Function.update noBindings "a"
    (some { value := SEXP.int 1, locked := false, active := false })) false Env.empty

/-- A scope that binds `p` to a deferred value evaluating to 5. -/
def deferred : Env :=
  Env.scope (Function.update noBindings "p"
    (some { value := SEXP.promise (SEXP.int 5), locked := false, active := false }))
    false Env.empty

/-- A grandparent scope that binds `g` to 7. -/
def grandparent : Env :=
  Env.scope (Function.update noBindings "g"
    (some { value := SEXP.int 7, locked := false, active := false })) false Env.empty

/-- A child scope with no binding of `g`, whose parent has none either and whose
grandparent binds `g`. -/
def child : Env := Env.scope noBindings false (Env.scope noBindings false grandparent)

end scopes

/-! ### The evaluator and the handles made from boxed values -/

/-- Modelled from the spec: a boxed value as the evaluator takes and returns it: a scope, a
logical scalar, or one of the other values of the model. -/
inductive RObject where
  | environment (e : Env)
  | logical (b : Bool)
  | value (x : SEXP)

/-- Modelled from the spec: a constructed call expression, the function named by its symbol
applied to its arguments in order. -/
structure Lang where
  fn : String
  args : List RObject

/-- The typed exceptions of the constructors and evaluator calls of `Environment.h`. -/
inductive Exception where
  | eval_error (message : String)
  | not_compatible (message : String)
  | no_such_env (name : String)
  | no_such_namespace (package : String)
  deriving DecidableEq, Repr

/-- Modelled from the spec: `Rf_lang2(fn, x)`, the call `fn(x)`. -/
def Rf_lang2 (fn : String) (x : RObject) : Lang := { fn := fn, args := [x] }

/-- Modelled from the spec: `Rf_lang3(fn, x, y)`, the call `fn(x, y)`. -/
def Rf_lang3 (fn : String) (x y : RObject) : Lang := { fn := fn, args := [x, y] }

/-- Modelled from the spec: `Rf_ScalarLogical(b)`. -/
def Rf_ScalarLogical (b : Bool) : RObject := RObject.logical b

/-- Modelled from the spec: the argument that a call of `new.env` passes for the formal
`parent`: the formals of `new.env` are `hash`, `parent`, `size`, and the arguments of the
call are matched by position. -/
def new_env_parent (call : Lang) : Option RObject := call.args.get? 1

/-- Modelled from the spec: the evaluator entry point `Rcpp_eval`: it evaluates the call
with the evaluator `R` of the host runtime, which returns a value or the message of an
evaluation error, and throws `eval_error` in the second case. -/
def Rcpp_eval (R : Lang → Except String RObject) (call : Lang) : Except Exception RObject :=
  match R call with
  | Except.ok res => Except.ok res
  | Except.error message => Except.error (Exception.eval_error message)

/-- Modelled from the spec: `ENCLOS(env)`, the parent of a scope; the empty scope has none
and gives the nil value. -/
def ENCLOS : Env → RObject
  | Env.empty => RObject.value SEXP.nil
  | Env.scope _ _ enclos => RObject.environment enclos

/-- What the evaluator of the host runtime owes for `new.env`: when the call
`new.env(hash, parent)` succeeds, its result is a scope whose parent is the scope passed
for `parent`. -/
def NewEnvContract (R : Lang → Except String RObject) : Prop :=
  ∀ (call : Lang) (res : RObject) (parent : Env), call.fn = "new.env" →
    new_env_parent call = some (RObject.environment parent) → R call = Except.ok res →
    ∃ frame locked, res = RObject.environment (Env.scope frame locked parent)

namespace Environment_Impl

/-- The method `Environment_Impl::as_environment` (lines 13-22). -/
def as_environment (R : Lang → Except String RObject) (x : RObject) :
    Except Exception RObject :=
  match x with
  | RObject.environment _ => Except.ok x
  | _ =>
    match Rcpp_eval R (Rf_lang2 "as.environment" x) with
    | Except.ok res => Except.ok res
    | Except.error (Exception.eval_error _) =>
      Except.error (Exception.not_compatible "cannot convert to environment")
    | Except.error e => Except.error e

/-- The constructor `Environment( x )` from a boxed value, which the class gets from the
macro `RCPP_API_IMPL`, not in this header. Modelled from the spec: the handle wraps the
scope through `set`, that is `data = as_environment(x)` (lines 26-28); the result is the
`data` of the new handle. -/
def Environment (R : Lang → Except String RObject) (x : RObject) : Except Exception RObject :=
  as_environment R x

/-- The method `Environment_Impl::parent` (lines 309-311). -/
def parent (R : Lang → Except String RObject) (data : Env) : Except Exception RObject :=
  Environment R (ENCLOS data)

/-- The method `Environment_Impl::new_child` (lines 316-319). -/
def new_child (R : Lang → Except String RObject) (data : Env) (hashed : Bool) :
    Except Exception RObject :=
  match Rcpp_eval R (Rf_lang3 "new.env" (Rf_ScalarLogical hashed) (RObject.environment data)) with
  | Except.ok res => Environment R res
  | Except.error e => Except.error e

/-- The method `Environment_Impl::get` (lines 88-98) as a step on the scope, like the
methods that change it: its result, and the scope after the call. `Rf_findVarInFrame` reads
the frame. `Rf_eval( res, data )` on a promise hands its code to the evaluator of the host
runtime, which yields the value of the promise and can change the scope while it runs that
code; `effect res data` is the scope that the evaluator leaves. -/
def get_step (effect : SEXP → Env → Env) (data : Env) (name : String) :
    Except Error SEXP × Env :=
  match Rf_findVarInFrame data name with
  | none => (Except.ok SEXP.nil, data)
  | some res =>
    if TYPEOF res = SEXPTYPE.PROMSXP then (Except.ok (Rf_eval res data), effect res data)
    else (Except.ok res, data)

end Environment_Impl

namespace scopes

/-- An evaluator for the examples: `new.env(hash, parent)` gives a fresh scope with no
binding whose parent is `parent`; any other call is an evaluation error. -/
def evaluator (call : Lang) : Except String RObject :=
  if call.fn = "new.env" then
    match call.args with
    | [_, RObject.environment parent] =>
      Except.ok (RObject.environment (Env.scope noBindings false parent))
    | _ => Except.error "invalid arguments"
  else Except.error "could not find function"

end scopes

namespace scopes

/-- What the evaluator leaves when the code of the promise, besides yielding its value,
assigns 1 to the variable `q` of the scope. -/
def defines_q (_res : SEXP) (data : Env) : Env :=
  match Rf_defineVar "q" (SEXP.int 1) data with
  | Except.ok data1 => data1
  | Except.error _ => data

/-- What the evaluator leaves when the code of the promise, besides yielding its value,
assigns 99 to the variable `p` of the scope. -/
def rebinds_p (_res : SEXP) (data : Env) : Env :=
  match Rf_defineVar "p" (SEXP.int 99) data with
  | Except.ok data1 => data1
  | Except.error _ => data

end scopes

/-! ### Handles made from names, positions and packages -/

/-- Modelled from the spec: `Rf_mkString(s)`, a boxed string. -/
def Rf_mkString (s : String) : RObject := RObject.value (SEXP.str s)

/-- Modelled from the spec: `Rf_ScalarInteger(n)`, a boxed integer. -/
def Rf_ScalarInteger (n : Int) : RObject := RObject.value (SEXP.int n)

namespace Environment_Impl

/-- The method `Environment_Impl::set` (lines 26-28), `data = as_environment(x)`, as a step
on the reference `data` that the handle stores: when `as_environment` throws, the assignment
does not take place. -/
def set (R : Lang → Except String RObject) (data : RObject) (x : RObject) :
    Except Exception Unit × RObject :=
  match as_environment R x with
  | Except.ok res => (Except.ok (), res)
  | Except.error e => (Except.error e, data)

/-- The constructor `Environment_Impl( const std::string& name )` (lines 32-48); the result
is the `data` of the new handle. `R_GlobalEnv` and `R_BaseEnv` are the global scope and the
base scope of the host runtime. -/
def ctor_name (R_GlobalEnv R_BaseEnv : Env) (R : Lang → Except String RObject)
    (name : String) : Except Exception RObject :=
  if name = ".GlobalEnv" then Except.ok (RObject.environment R_GlobalEnv)
  else if name = "package:base" then Except.ok (RObject.environment R_BaseEnv)
  else
    match Rcpp_eval R (Rf_lang2 "as.environment" (Rf_mkString name)) with
    | Except.ok res => Except.ok res
    | Except.error (Exception.eval_error _) => Except.error (Exception.no_such_env name)
    | Except.error e => Except.error e

/-- The constructor `Environment_Impl( int pos )` (lines 50-57); the exception
`no_such_env(pos)` carries the position, written out. -/
def ctor_pos (R : Lang → Except String RObject) (pos : Int) : Except Exception RObject :=
  match Rcpp_eval R (Rf_lang2 "as.environment" (Rf_ScalarInteger pos)) with
  | Except.ok res => Except.ok res
  | Except.error (Exception.eval_error _) =>
    Except.error (Exception.no_such_env (toString pos))
  | Except.error e => Except.error e

/-- The static method `Environment_Impl::namespace_env` (lines 295-304). -/
def namespace_env (R : Lang → Except String RObject) (package : String) :
    Except Exception RObject :=
  match Rcpp_eval R (Rf_lang2 "getNamespace" (Rf_mkString package)) with
  | Except.ok env => Environment R env
  | Except.error (Exception.eval_error _) =>
    Except.error (Exception.no_such_namespace package)
  | Except.error e => Except.error e

end Environment_Impl

namespace scopes

/-- An evaluator for the examples that knows one package and one attached scope:
`getNamespace("stats")` and `as.environment("package:stats")` give the scope binding `a`
to 1, `as.environment(2)` gives the fresh scope; any other call is an evaluation error. -/
def registry (call : Lang) : Except String RObject :=
  match call.fn, call.args with
  | "getNamespace", [RObject.value (SEXP.str "stats")] => Except.ok (RObject.environment one)
  | "as.environment", [RObject.value (SEXP.str "package:stats")] =>
    Except.ok (RObject.environment one)
  | "as.environment", [RObject.value (SEXP.int 2)] => Except.ok (RObject.environment fresh)
  | _, _ => Except.error "evaluation error"

end scopes

/-! ## Theorems -/

namespace sugar

open traits

/-- C1: in a product node whose left operand is NA-flagged (the generic class and the
`RHS_NA = false` specialization), at every index in range where `a[i]` is the NA sentinel
the element of the product is the NA sentinel, whatever `b[i]` is. -/
theorem times_vector_vector_na_left (a b : VectorBase Id) (i : Int)
    (_hi : 0 ≤ i ∧ i < Times_Vector_Vector.size a b) (ha : a.get i = NA_INTEGER) :
    Times_Vector_Vector.index a b i = NA_INTEGER ∧
      Times_Vector_Vector.index_rhs_nona a b i = NA_INTEGER := by
  have hna : is_na (a.get i) = true := by simp [is_na, ha]
  constructor
  · show (if is_na (a.get i) = true then a.get i else _) = NA_INTEGER
    rw [if_pos hna, ha]
  · show (if is_na (a.get i) = true then a.get i else _) = NA_INTEGER
    rw [if_pos hna, ha]

/-- Witness of C1: the vectors (NA, 2) and (7, 3) at index 0. -/
theorem times_vector_vector_na_left_witness :
    (IntegerVector [NA_INTEGER, 2]).get 0 = NA_INTEGER ∧
      Times_Vector_Vector.index (IntegerVector [NA_INTEGER, 2]) (IntegerVector [7, 3]) 0
        = NA_INTEGER ∧
      Times_Vector_Vector.index_rhs_nona (IntegerVector [NA_INTEGER, 2])
        (IntegerVector [7, 3]) 0 = NA_INTEGER :=
  ⟨rfl, times_vector_vector_na_left (IntegerVector [NA_INTEGER, 2]) (IntegerVector [7, 3]) 0
    (by decide) rfl⟩

/-- C2: the generic product node (both operands NA-flagged, integer elements) returns at
every index in range the reference element: `a[i]` if it is NA, otherwise `b[i]` if it is
NA, otherwise the machine product of the two. -/
theorem times_vector_vector_index_eq_reference (a b : VectorBase Id) (i : Int)
    (_hi : 0 ≤ i ∧ i < Times_Vector_Vector.size a b) :
    Times_Vector_Vector.index a b i = times_reference a.get b.get i := by
  show (if is_na (a.get i) = true then a.get i
      else (if is_na (b.get i) = true then b.get i else times (a.get i) (b.get i)))
    = times_reference a.get b.get i
  unfold times_reference is_na
  by_cases ha : a.get i = NA_INTEGER
  · simp [ha]
  · by_cases hb : b.get i = NA_INTEGER
    · simp [ha, hb]
    · simp [ha, hb]

/-- Witness of C2: the vectors (6, NA, 65536) and (7, 3, 65536) at index 2, where the
machine product wraps to 0. -/
theorem times_vector_vector_index_eq_reference_witness :
    Times_Vector_Vector.index (IntegerVector [6, NA_INTEGER, 65536])
        (IntegerVector [7, 3, 65536]) 2
      = times_reference (IntegerVector [6, NA_INTEGER, 65536]).get
          (IntegerVector [7, 3, 65536]).get 2 :=
  times_vector_vector_index_eq_reference (IntegerVector [6, NA_INTEGER, 65536])
    (IntegerVector [7, 3, 65536]) 2 (by decide)

end sugar

/-! ### Dispatch -/

section dispatch

variable {SEXP Err Obj Val : Type}

/-- When the conversions of the slots `k, ..., k+n-1` all succeed, the `n` declarations
give the converted values in order, each slot having been converted once, in order. -/
theorem input_parameters_ok (ip : Nat → SEXP → Except Err Val) (args : Nat → SEXP) :
    ∀ (n k : Nat) (xs : List Val), xs.length = n →
      (∀ j x, xs[j]? = some x → ip (k + j) (args (k + j)) = Except.ok x) →
      input_parameters ip args k n
        = (Except.ok xs, (List.range' k n).map Event.convert) := by
  intro n
  induction n with
  | zero =>
    intro k xs hlen _
    have : xs = [] := List.length_eq_zero.mp hlen
    subst this
    rfl
  | succ n ih =>
    intro k xs hlen h
    cases xs with
    | nil => simp at hlen
    | cons x xs =>
      have h0 : ip k (args k) = Except.ok x := by
        have := h 0 x (by simp)
        simpa using this
      have hrest : ∀ j y, xs[j]? = some y →
          ip (k + 1 + j) (args (k + 1 + j)) = Except.ok y := by
        intro j y hj
        have := h (j + 1) y (by simpa using hj)
        have e : k + (j + 1) = k + 1 + j := by omega
        rw [e] at this
        exact this
      have hl : xs.length = n := by simpa using hlen
      simp only [input_parameters, h0, ih (k + 1) xs hl hrest]
      simp [List.range']

/-- When the conversion of one of the slots `k, ..., k+n-1` fails, the declarations stop at
the first slot that fails, with its error, having started the conversions up to that slot
only. -/
theorem input_parameters_error (ip : Nat → SEXP → Except Err Val) (args : Nat → SEXP) :
    ∀ (n k : Nat), (∃ j, j < n ∧ ∃ e, ip (k + j) (args (k + j)) = Except.error e) →
      ∃ j e, j < n ∧ ip (k + j) (args (k + j)) = Except.error e ∧
        (∀ i, i < j → ∃ x, ip (k + i) (args (k + i)) = Except.ok x) ∧
        input_parameters ip args k n
          = (Except.error e, (List.range' k (j + 1)).map Event.convert) := by
  intro n
  induction n with
  | zero =>
    intro k h
    obtain ⟨j, hj, _⟩ := h
    omega
  | succ n ih =>
    intro k h
    cases h0 : ip k (args k) with
    | error e =>
      refine ⟨0, e, by omega, by simpa using h0, ?_, ?_⟩
      · intro i hi
        omega
      · simp [input_parameters, h0, List.range']
    | ok x =>
      have h' : ∃ j, j < n ∧ ∃ e, ip (k + 1 + j) (args (k + 1 + j)) = Except.error e := by
        obtain ⟨j, hj, e, he⟩ := h
        cases j with
        | zero =>
          simp [h0] at he
        | succ j =>
          refine ⟨j, by omega, e, ?_⟩
          have e1 : k + (j + 1) = k + 1 + j := by omega
          rw [e1] at he
          exact he
      obtain ⟨j, e, hj, he, hbefore, hrun⟩ := ih (k + 1) h'
      refine ⟨j + 1, e, by omega, ?_, ?_, ?_⟩
      · have e1 : k + (j + 1) = k + 1 + j := by omega
        rw [e1]
        exact he
      · intro i hi
        cases i with
        | zero => exact ⟨x, by simpa using h0⟩
        | succ i =>
          obtain ⟨y, hy⟩ := hbefore i (by omega)
          refine ⟨y, ?_⟩
          have e1 : k + (i + 1) = k + 1 + i := by omega
          rw [e1]
          exact hy
      · simp only [input_parameters, h0, hrun]
        simp [List.range']

/-- The events of the conversions hold no call of the method. -/
theorem invocations_convert (ks : List Nat) :
    invocations (ks.map (Event.convert : Nat → Event Val)) = [] := by
  induction ks with
  | nil => rfl
  | cons k ks ih => simpa [invocations] using ih

/-- The calls recorded in a list of events followed by one call. -/
theorem invocations_append_invoke (es : List (Event Val)) (xs : List Val) :
    invocations (es ++ [Event.invoke xs]) = invocations es ++ [xs] := by
  induction es with
  | nil => rfl
  | cons e es ih =>
    cases e with
    | convert k => simpa [invocations] using ih
    | invoke ys => simpa [invocations] using ih

/-- The overloads that can be instantiated: the one of arity 0 only. -/
theorem instantiable_iff (N : Nat) : instantiable N = true ↔ N = 0 := by
  simp [instantiable, Method_parameters]

/-- An overload of arity 1 or more cannot be instantiated: the call in its body passes
arguments to a member function declared with no parameter. -/
theorem void_method_invoke_ill_formed (N : Nat) (ip : Nat → SEXP → Except Err Val)
    (Method : Obj → Obj) (object : Obj) (args : Nat → SEXP) (h : 1 ≤ N) :
    void_method_invoke N ip Method object args = none := by
  have hN : instantiable N = false := by
    cases hi : instantiable N with
    | false => rfl
    | true =>
      have := (instantiable_iff N).1 hi
      omega
  simp [void_method_invoke, hN]

/-- The general overload at arity 0 is the overload of arity 0 as the header writes it. -/
theorem void_method_invoke_zero (ip : Nat → SEXP → Except Err Val) (Method : Obj → Obj)
    (object : Obj) (args : Nat → SEXP) :
    void_method_invoke 0 ip Method object args
      = some (void_method_invoke_0 Method object args) := rfl

end dispatch

namespace scenario

/-- C3: the header as written dispatches for arity 0 only. For three declared parameter
types (int, double, string) and the array [meta, box(1), box(2.5), box("x")] the overload of
arity 3 cannot be instantiated, because its body passes three arguments to `Method`, which
the header declares with no parameter: no dispatch exists and the method is not invoked. The
overload of arity 0 invokes the bound method exactly once, on the object. -/
theorem void_method_invoke_three_ill_formed :
    Method_parameters 3 = 0 ∧ instantiable 3 = false ∧
    void_method_invoke 3 (wrappers [ParamType.int, ParamType.real, ParamType.str]) count 0
      (array [Boxed.metadata, Boxed.int 1, Boxed.real 2.5, Boxed.str "x"]) = none ∧
    void_method_invoke 0 (wrappers []) count 0 (array [Boxed.metadata])
      = some { result := Except.ok (), object := 1, events := [Event.invoke []] } :=
  ⟨rfl, rfl, rfl, rfl⟩

/-- C4: for two declared parameter types (int, double) and an array whose slot 2 holds a
boxed string, unconvertible to double, the overload of arity 2 cannot be instantiated (its
body passes two arguments to `Method`, declared with no parameter): no call exists that
could report the type error of the conversion. -/
theorem void_method_invoke_two_ill_formed :
    wrappers [ParamType.int, ParamType.real] 2
      (array [Boxed.metadata, Boxed.int 1, Boxed.str "x"] 2)
      = Except.error (ConvError.not_compatible 2) ∧
    instantiable 2 = false ∧
    void_method_invoke 2 (wrappers [ParamType.int, ParamType.real]) count 0
      (array [Boxed.metadata, Boxed.int 1, Boxed.str "x"]) = none :=
  ⟨rfl, rfl, rfl⟩

end scenario

/-! ### Environment facade -/

namespace Environment_Impl

open scopes

/-- The lookup in the own frame, in terms of the frame. -/
theorem findVarInFrame_eq (data : Env) (name : String) :
    Rf_findVarInFrame data name = (data.frame name).map Cell.value := by
  cases data with
  | empty => rfl
  | scope frame locked enclos =>
    simp only [Rf_findVarInFrame, Env.frame]
    cases frame name <;> rfl

/-- The test `exists` holds exactly when the own frame binds the name. -/
theorem exists_eq (data : Env) (name : String) :
    exists_ data name = (data.frame name).isSome := by
  unfold exists_
  rw [findVarInFrame_eq]
  cases data.frame name <;> rfl

/-- The search along the chain finds nothing exactly when no frame of the chain binds
the name. -/
theorem findVar_none_iff (name : String) (data : Env) :
    Rf_findVar name data = none ↔ ∀ f ∈ data.chain, f name = none := by
  induction data with
  | empty => simp [Rf_findVar, Env.chain]
  | scope frame locked enclos ih =>
    cases h : frame name with
    | none => simp [Rf_findVar, Env.chain, h, ih]
    | some c => simp [Rf_findVar, Env.chain, h]

/-- The search along the chain returns the value bound in the first frame that binds the
name. -/
theorem findVar_nearest (name : String) (c : Cell) (f : Frame) (post : List Frame) :
    ∀ (pre : List Frame) (data : Env), data.chain = pre ++ f :: post →
      (∀ g ∈ pre, g name = none) → f name = some c →
      Rf_findVar name data = some c.value := by
  intro pre
  induction pre with
  | nil =>
    intro data hchain _ hf
    cases data with
    | empty => simp [Env.chain] at hchain
    | scope frame locked enclos =>
      simp only [Env.chain, List.nil_append, List.cons.injEq] at hchain
      obtain ⟨h1, _⟩ := hchain
      subst h1
      simp [Rf_findVar, hf]
  | cons g pre ih =>
    intro data hchain hpre hf
    cases data with
    | empty => simp [Env.chain] at hchain
    | scope frame locked enclos =>
      simp only [Env.chain, List.cons_append, List.cons.injEq] at hchain
      obtain ⟨h1, h2⟩ := hchain
      subst h1
      have hg : frame name = none := hpre frame (by simp)
      have := ih enclos h2 (fun g hg => hpre g (by simp [hg])) hf
      simp [Rf_findVar, hg, this]

/-- C5 (amended): for a name bound in the scope and any value x, lockBinding succeeds and
then assign fails with binding_is_locked, leaving the scope as it is; after unlockBinding the
same assign returns true, and get then yields x when x is not a deferred value, and the
value that x evaluates to when x is a deferred value (a promise). -/
theorem lock_enforcement_forced (data : Env) (name : String) (x : SEXP)
    (hb : data.frame name ≠ none) :
    (lockBinding data name).1 = Except.ok () ∧
    assign (lockBinding data name).2 name x
      = (Except.error (Error.binding_is_locked name), (lockBinding data name).2) ∧
    (unlockBinding (lockBinding data name).2 name).1 = Except.ok () ∧
    (assign (unlockBinding (lockBinding data name).2 name).2 name x).1 = Except.ok true ∧
    Environment_Impl.get (assign (unlockBinding (lockBinding data name).2 name).2 name x).2 name
      = Except.ok (if TYPEOF x = SEXPTYPE.PROMSXP
          then Rf_eval x (assign (unlockBinding (lockBinding data name).2 name).2 name x).2
          else x) := by
  cases data with
  | empty => exact absurd rfl hb
  | scope frame locked enclos =>
    cases h : frame name with
    | none => exact absurd h hb
    | some c =>
      simp [lockBinding, unlockBinding, assign, bindingIsLocked, exists_, Rf_findVarInFrame,
        R_LockBinding, R_unLockBinding, R_setBindingLock, R_BindingIsLocked, Env.frame,
        Rf_defineVar, Environment_Impl.get, h]
      split <;> simp_all

/-- Witness of C5 (amended): the scope binding `a` to 1 and the value 2. -/
theorem lock_enforcement_forced_witness :
    (lockBinding one "a").1 = Except.ok () ∧
    assign (lockBinding one "a").2 "a" (SEXP.int 2)
      = (Except.error (Error.binding_is_locked "a"), (lockBinding one "a").2) ∧
    (unlockBinding (lockBinding one "a").2 "a").1 = Except.ok () ∧
    (assign (unlockBinding (lockBinding one "a").2 "a").2 "a" (SEXP.int 2)).1
      = Except.ok true ∧
    Environment_Impl.get
        (assign (unlockBinding (lockBinding one "a").2 "a").2 "a" (SEXP.int 2)).2 "a"
      = Except.ok (if TYPEOF (SEXP.int 2) = SEXPTYPE.PROMSXP
          then Rf_eval (SEXP.int 2)
            (assign (unlockBinding (lockBinding one "a").2 "a").2 "a" (SEXP.int 2)).2
          else SEXP.int 2) :=
  lock_enforcement_forced one "a" (SEXP.int 2) (by decide)

/-- Counterexample to C5 as stated: in the scope binding `a` to 1, with x a deferred value
that evaluates to 5, the locked assign fails and the unlocked assign returns true as the
claim says, but get then yields 5 and not x. -/
theorem lock_enforcement_counterexample :
    one.frame "a" ≠ none ∧
    (lockBinding one "a").1 = Except.ok () ∧
    (assign (lockBinding one "a").2 "a" (SEXP.promise (SEXP.int 5))).1
      = Except.error (Error.binding_is_locked "a") ∧
    (unlockBinding (lockBinding one "a").2 "a").1 = Except.ok () ∧
    (assign (unlockBinding (lockBinding one "a").2 "a").2 "a"
      (SEXP.promise (SEXP.int 5))).1 = Except.ok true ∧
    Environment_Impl.get (assign (unlockBinding (lockBinding one "a").2 "a").2 "a"
      (SEXP.promise (SEXP.int 5))).2 "a" = Except.ok (SEXP.int 5) ∧
    Environment_Impl.get (assign (unlockBinding (lockBinding one "a").2 "a").2 "a"
      (SEXP.promise (SEXP.int 5))).2 "a" ≠ Except.ok (SEXP.promise (SEXP.int 5)) := by
  decide

/-- C6 (amended): find fails with binding_not_found exactly when no scope of the chain binds
the name; otherwise it returns the value of the binding of the nearest scope of the chain
that binds the name (this scope, then its parents), evaluated first when that value is a
deferred value (a promise); find on a child scope locates a binding defined only in its
grandparent scope. -/
theorem find_nearest_forced (data : Env) (name : String) :
    (find data name = Except.error (Error.binding_not_found name)
      ↔ ∀ f ∈ data.chain, f name = none) ∧
    (∀ (pre : List Frame) (f : Frame) (post : List Frame) (c : Cell),
      data.chain = pre ++ f :: post → (∀ g ∈ pre, g name = none) → f name = some c →
      find data name = Except.ok
        (if TYPEOF c.value = SEXPTYPE.PROMSXP then Rf_eval c.value data else c.value)) ∧
    (child.frame "g" = none ∧ find child "g" = Except.ok (SEXP.int 7)) := by
  refine ⟨?_, ?_, by decide, by decide⟩
  · rw [← findVar_none_iff]
    unfold find
    cases h : Rf_findVar name data with
    | none => simp
    | some res =>
      simp only [reduceCtorEq, iff_false]
      split <;> simp
  · intro pre f post c hchain hpre hf
    unfold find
    rw [findVar_nearest name c f post pre data hchain hpre hf]
    simp only
    split <;> rfl

/-- Witness of C6 (amended): the child scope, whose own frame and whose parent do not bind
`g`, and whose grandparent binds it to 7. -/
theorem find_nearest_forced_witness :
    find child "g" = Except.ok
      (if TYPEOF (SEXP.int 7) = SEXPTYPE.PROMSXP then Rf_eval (SEXP.int 7) child
        else SEXP.int 7) :=
  (find_nearest_forced child "g").2.1 [noBindings, noBindings] grandparent.frame []
    { value := SEXP.int 7, locked := false, active := false } rfl
    (by
      intro g hg
      simp only [List.mem_cons, List.mem_singleton, List.mem_nil_iff, or_false, or_self] at hg
      subst hg
      rfl)
    (by decide)

/-- Counterexample to C6 as stated: the scope that binds `p` to a deferred value evaluating
to 5 is the nearest scope binding `p`, and find returns 5, which is not the value of that
binding. -/
theorem find_counterexample :
    deferred.frame "p"
      = some { value := SEXP.promise (SEXP.int 5), locked := false, active := false } ∧
    find deferred "p" = Except.ok (SEXP.int 5) ∧
    find deferred "p" ≠ Except.ok (SEXP.promise (SEXP.int 5)) := by
  decide

/-- C7: for a name that the own frame of the scope does not bind, get returns the nil
sentinel and does not fail, whatever the parents of the scope bind. -/
theorem get_unbound_is_nil (data : Env) (name : String) (h : data.frame name = none) :
    Environment_Impl.get data name = Except.ok SEXP.nil := by
  unfold Environment_Impl.get
  rw [findVarInFrame_eq, h]
  rfl

/-- Witness of C7: the child scope does not bind `g`, its grandparent does (find locates
it), and get returns nil. -/
theorem get_unbound_is_nil_witness :
    child.frame "g" = none ∧ find child "g" = Except.ok (SEXP.int 7) ∧
      Environment_Impl.get child "g" = Except.ok SEXP.nil :=
  ⟨by decide, by decide, get_unbound_is_nil child "g" (by decide)⟩


/-- C8 (amended): assign fails with binding_is_locked exactly when the name is bound in the
own frame of the scope and that binding is locked. Otherwise, when the name is already
bound, or the scope is neither the empty scope nor locked as a whole, it defines name -> x in
this scope and returns true, after which exists is true. It never returns false and never
fails with no_such_binding. When the name is unbound and the scope is the empty scope or is
locked as a whole, the define-variable call of the host runtime fails with the error of the
runtime and the scope is left as it was. -/
theorem assign_outcomes (data : Env) (name : String) (x : SEXP) :
    ((assign data name x).1 = Except.error (Error.binding_is_locked name)
      ↔ ∃ c, data.frame name = some c ∧ c.locked = true) ∧
    ((∀ c, data.frame name = some c → c.locked = false) →
      (data.frame name ≠ none ∨ (data ≠ Env.empty ∧ isLocked data = false)) →
      (assign data name x).1 = Except.ok true ∧
      Rf_findVarInFrame (assign data name x).2 name = some x ∧
      exists_ (assign data name x).2 name = true) ∧
    (assign data name x).1 ≠ Except.ok false ∧
    (∀ n, (assign data name x).1 ≠ Except.error (Error.no_such_binding n)) ∧
    (data.frame name = none → (data = Env.empty ∨ isLocked data = true) →
      ∃ message, assign data name x = (Except.error (Error.r_error message), data)) := by
  cases data with
  | empty =>
    simp [assign, exists_, Rf_findVarInFrame, Rf_defineVar, Env.frame]
  | scope frame locked enclos =>
    cases h : frame name with
    | none =>
      cases locked <;>
        simp [assign, exists_, Rf_findVarInFrame, Rf_defineVar, Env.frame, h, isLocked,
          R_EnvironmentIsLocked]
    | some c =>
      rcases c with ⟨v, l, a⟩
      cases l <;>
        simp [assign, exists_, Rf_findVarInFrame, Rf_defineVar, Env.frame, h, isLocked,
          R_EnvironmentIsLocked, bindingIsLocked, R_BindingIsLocked]

/-- Witness of C8 (amended): assigning 1 to the unbound name `b` in the scope binding `a`,
which is neither empty nor locked. -/
theorem assign_outcomes_witness :
    (assign one "b" (SEXP.int 1)).1 = Except.ok true ∧
      Rf_findVarInFrame (assign one "b" (SEXP.int 1)).2 "b" = some (SEXP.int 1) ∧
      exists_ (assign one "b" (SEXP.int 1)).2 "b" = true :=
  (assign_outcomes one "b" (SEXP.int 1)).2.1 (by decide) (Or.inr ⟨fun h => Env.noConfusion h, by decide⟩)


/-- Counterexample to C8 as stated: a fresh scope locked as a whole by `lock(false)` does
not bind `a`, so no locked binding of `a` exists; assign does not return true, it fails with
the error of the host runtime, and exists is false afterwards. -/
theorem assign_counterexample :
    (lock fresh false).2.frame "a" = none ∧
    (assign (lock fresh false).2 "a" (SEXP.int 1)).1 ≠ Except.ok true ∧
    (assign (lock fresh false).2 "a" (SEXP.int 1)).1
      = Except.error (Error.r_error "cannot add bindings to a locked environment") ∧
    exists_ (assign (lock fresh false).2 "a" (SEXP.int 1)).2 "a" = false := by
  decide

/-- C9 (amended): remove fails with no_such_binding, leaving the scope as it is, when the
name is unbound in the own frame; it fails with binding_is_locked when the name is bound and
its binding locked; otherwise, when the scope is not locked as a whole, it removes the
binding from this scope only (the other bindings and the parents are as before) and returns
true, after which exists is false. When the scope is locked as a whole, the removal call of
the host runtime fails with the error of the runtime and the scope is left as it was. -/
theorem remove_outcomes (data : Env) (name : String) :
    (data.frame name = none →
      remove data name = (Except.error (Error.no_such_binding name), data)) ∧
    (∀ c, data.frame name = some c → c.locked = true →
      remove data name = (Except.error (Error.binding_is_locked name), data)) ∧
    (∀ c, data.frame name = some c → c.locked = false → isLocked data = false →
      (remove data name).1 = Except.ok true ∧
      exists_ (remove data name).2 name = false ∧
      (∀ m, m ≠ name → (remove data name).2.frame m = data.frame m) ∧
      (remove data name).2.chain.tail = data.chain.tail) ∧
    (∀ c, data.frame name = some c → c.locked = false → isLocked data = true →
      ∃ message, remove data name = (Except.error (Error.r_error message), data)) := by
  cases data with
  | empty =>
    simp [remove, exists_, Rf_findVarInFrame, Env.frame]
  | scope frame locked enclos =>
    cases h : frame name with
    | none =>
      simp [remove, exists_, Rf_findVarInFrame, Env.frame, h]
    | some c =>
      rcases c with ⟨v, l, a⟩
      cases l <;> cases locked <;>
        simp [remove, exists_, Rf_findVarInFrame, Env.frame, h, isLocked,
          R_EnvironmentIsLocked, bindingIsLocked, R_BindingIsLocked, R_remove, Env.chain]
      intro m hm
      exact Function.update_noteq hm _ _

/-- Counterexample to C9 as stated: the scope binding `a` to 1, locked as a whole by
`lock(false)`, binds `a` with an unlocked binding; remove does not return true, it fails with
the error of the host runtime, and exists is still true afterwards. -/
theorem remove_counterexample :
    (lock one false).2.frame "a"
      = some { value := SEXP.int 1, locked := false, active := false } ∧
    (remove (lock one false).2 "a").1 ≠ Except.ok true ∧
    (remove (lock one false).2 "a").1
      = Except.error (Error.r_error "cannot remove bindings from a locked environment") ∧
    exists_ (remove (lock one false).2 "a").2 "a" = true := by
  decide

/-- Witness of C9 (amended): removing `a` from the scope binding `a` to 1, which is not
locked. -/
theorem remove_outcomes_witness :
    (remove one "a").1 = Except.ok true ∧
      exists_ (remove one "a").2 "a" = false ∧
      (∀ m, m ≠ "a" → (remove one "a").2.frame m = one.frame m) ∧
      (remove one "a").2.chain.tail = one.chain.tail :=
  (remove_outcomes one "a").2.2.1 { value := SEXP.int 1, locked := false, active := false }
    (by decide) rfl (by decide)

/-- C10: each of lockBinding, unlockBinding, bindingIsLocked and bindingIsActive fails with
no_such_binding exactly when the name is unbound in the own frame of the scope; in that case
lockBinding and unlockBinding leave the scope as it is (the two queries only read it). -/
theorem binding_queries_no_such_binding (data : Env) (name : String) :
    ((lockBinding data name).1 = Except.error (Error.no_such_binding name)
      ↔ data.frame name = none) ∧
    ((unlockBinding data name).1 = Except.error (Error.no_such_binding name)
      ↔ data.frame name = none) ∧
    (bindingIsLocked data name = Except.error (Error.no_such_binding name)
      ↔ data.frame name = none) ∧
    (bindingIsActive data name = Except.error (Error.no_such_binding name)
      ↔ data.frame name = none) ∧
    (data.frame name = none →
      (lockBinding data name).2 = data ∧ (unlockBinding data name).2 = data) := by
  cases data with
  | empty =>
    simp [lockBinding, unlockBinding, bindingIsLocked, bindingIsActive, exists_,
      Rf_findVarInFrame, Env.frame]
  | scope frame locked enclos =>
    cases h : frame name with
    | none =>
      simp [lockBinding, unlockBinding, bindingIsLocked, bindingIsActive, exists_,
        Rf_findVarInFrame, Env.frame, h]
    | some c =>
      simp [lockBinding, unlockBinding, bindingIsLocked, bindingIsActive, exists_,
        Rf_findVarInFrame, Env.frame, h, R_LockBinding, R_unLockBinding, R_setBindingLock,
        R_BindingIsLocked, R_BindingIsActive]
end Environment_Impl

/-! ### Sugar: scalar operands, nesting, accesses -/

namespace sugar

open traits

/-- Two integers that agree modulo 2^32 are held by the same 32-bit int. -/
theorem wrap32_congr (x y : Int) (h : x % 4294967296 = y % 4294967296) :
    wrap32 x = wrap32 y := by
  unfold wrap32
  omega

/-- The value of a 32-bit int agrees modulo 2^32 with the integer it holds. -/
theorem wrap32_emod (x : Int) : wrap32 x % 4294967296 = x % 4294967296 := by
  unfold wrap32
  omega

/-- The machine product is associative. -/
theorem times_assoc (x y z : Int) : times (times x y) z = times x (times y z) := by
  unfold times
  apply wrap32_congr
  rw [Int.mul_emod, wrap32_emod, ← Int.mul_emod, Int.mul_emod x, wrap32_emod, ← Int.mul_emod,
    Int.mul_assoc]

/-- C12 (amended): for three equal-length integer vectors (machine product modulo 2^32),
whatever their NA flags, and an index in range at which no element is the NA sentinel and
neither of the two inner products a[i]*b[i] and b[i]*c[i] has the value of the NA sentinel,
the nested nodes built by `operator*` agree: ((a * b) * c)[i] = (a * (b * c))[i]. -/
theorem operator_times_assoc (a b c : VectorBase Id) (i : Int)
    (_hlen : a.size = b.size ∧ b.size = c.size) (_hi : 0 ≤ i ∧ i < a.size)
    (ha : a.get i ≠ NA_INTEGER) (hb : b.get i ≠ NA_INTEGER) (hc : c.get i ≠ NA_INTEGER)
    (hab : times (a.get i) (b.get i) ≠ NA_INTEGER)
    (hbc : times (b.get i) (c.get i) ≠ NA_INTEGER) :
    (operator_times_vector_vector (operator_times_vector_vector a b) c).get i
      = (operator_times_vector_vector a (operator_times_vector_vector b c)).get i := by
  have ha1 : is_na (a.get i) = false := by simpa [is_na] using ha
  have hb1 : is_na (b.get i) = false := by simpa [is_na] using hb
  have hc1 : is_na (c.get i) = false := by simpa [is_na] using hc
  have hab1 : is_na (times (a.get i) (b.get i)) = false := by simpa [is_na] using hab
  have hbc1 : is_na (times (b.get i) (c.get i)) = false := by simpa [is_na] using hbc
  have key := times_assoc (a.get i) (b.get i) (c.get i)
  rcases a with ⟨na, sa, ga⟩
  rcases b with ⟨nb, sb, gb⟩
  rcases c with ⟨nc, sc, gc⟩
  cases na <;> cases nb <;> cases nc <;>
    simp only [operator_times_vector_vector, Times_Vector_Vector.index,
      Times_Vector_Vector.index_lhs_nona, Times_Vector_Vector.index_rhs_nona,
      Times_Vector_Vector.index_nona, Times_Vector_Vector.size] at * <;>
    simp_all [bind, pure]

/-- Witness of C12 (amended): the vectors (3), (5) and (7) at index 0. -/
theorem operator_times_assoc_witness :
    (operator_times_vector_vector
      (operator_times_vector_vector (IntegerVector [3]) (IntegerVector [5]))
      (IntegerVector [7])).get 0
    = (operator_times_vector_vector (IntegerVector [3])
      (operator_times_vector_vector (IntegerVector [5]) (IntegerVector [7]))).get 0 :=
  operator_times_assoc (IntegerVector [3]) (IntegerVector [5]) (IntegerVector [7]) 0
    (by decide) (by decide) (by decide) (by decide) (by decide) (by decide) (by decide)

/-- Counterexample to C12 as stated: the integer vectors (65536), (-32768) and (2) hold no
NA, but 65536 * -32768 is -2^31, the value of the NA sentinel, so the outer node of
(a * b) * c returns it as NA, while a * (b * c) is 65536 * -65536, which is 0 modulo 2^32. -/
theorem operator_times_assoc_counterexample :
    ((IntegerVector [65536]).get 0 : Int) ≠ NA_INTEGER ∧
    ((IntegerVector [-32768]).get 0 : Int) ≠ NA_INTEGER ∧
    ((IntegerVector [2]).get 0 : Int) ≠ NA_INTEGER ∧
    (operator_times_vector_vector
      (operator_times_vector_vector (IntegerVector [65536]) (IntegerVector [-32768]))
      (IntegerVector [2])).get 0 = NA_INTEGER ∧
    (operator_times_vector_vector (IntegerVector [65536])
      (operator_times_vector_vector (IntegerVector [-32768]) (IntegerVector [2]))).get 0 = 0 := by
  decide

/-- C11: for every integer vector expression v, every scalar k, NA or not, and every index
in range, `v * k` and `k * v` are the same `Times_Vector_Primitive` node and have the same
element; so it is for the two overloads that take a `NonaPrimitive` scalar. -/
theorem times_scalar_broadcast (v : VectorBase Id) (k : Int) (i : Int)
    (_hi : 0 ≤ i ∧ i < v.size) :
    operator_times_vector_primitive v k = operator_times_primitive_vector k v ∧
    (operator_times_vector_primitive v k).toVectorBase.get i
      = (operator_times_primitive_vector k v).toVectorBase.get i ∧
    operator_times_vector_nona v k = operator_times_nona_vector k v ∧
    (operator_times_vector_nona v k).toVectorBase.get i
      = (operator_times_nona_vector k v).toVectorBase.get i :=
  ⟨rfl, rfl, rfl, rfl⟩

/-- Witness of C11: the vector (3, NA) and the scalar 5 at index 0. -/
theorem times_scalar_broadcast_witness :
    (operator_times_vector_primitive (IntegerVector [3, NA_INTEGER]) 5).toVectorBase.get 0 = 15 ∧
    (operator_times_primitive_vector 5 (IntegerVector [3, NA_INTEGER])).toVectorBase.get 0 = 15 ∧
    (operator_times_vector_primitive (IntegerVector [3, NA_INTEGER]) 5).toVectorBase.get 0
      = (operator_times_primitive_vector 5 (IntegerVector [3, NA_INTEGER])).toVectorBase.get 0 :=
  ⟨by decide, by decide,
    (times_scalar_broadcast (IntegerVector [3, NA_INTEGER]) 5 0 (by decide)).2.1⟩

/-- C13 (amended): for the integer and logical element types, in a product node with an
NA-flagged left operand (the generic class and the `RHS_NA = false` specialization), at an
index where a[i] is the NA sentinel the evaluation reads a[i] and nothing else: the accessor
of the right operand is not called. For doubles the node has no NA test and reads both
operands at every index, also where a[i] is NA. -/
theorem times_vector_vector_short_circuit (flag : Bool) (sa sb : Int) (a b : Int → Int) (i : Int)
    (_hi : 0 ≤ i ∧ i < sa) (ha : a i = NA_INTEGER) :
    Times_Vector_Vector.index (observed Operand.lhs true sa a) (observed Operand.rhs flag sb b) i
      = { value := NA_INTEGER, log := [(Operand.lhs, i)] } ∧
    Times_Vector_Vector.index_rhs_nona (observed Operand.lhs true sa a)
        (observed Operand.rhs false sb b) i
      = { value := NA_INTEGER, log := [(Operand.lhs, i)] } ∧
    (∀ (x y : Int → Double),
      (Times_Vector_Vector_REALSXP.index (observedReal Operand.lhs true sa x)
        (observedReal Operand.rhs flag sb y) i).log = [(Operand.lhs, i), (Operand.rhs, i)]) := by
  have hna : is_na NA_INTEGER = true := rfl
  refine ⟨?_, ?_, ?_⟩
  · simp [Times_Vector_Vector.index, observed, bind, pure, hna, ha]
  · simp [Times_Vector_Vector.index_rhs_nona, observed, bind, pure, hna, ha]
  · intro x y
    rfl

/-- Witness of C13 (amended): the left operand (NA, NA) and the right operand (7, 7) at
index 0. -/
theorem times_vector_vector_short_circuit_witness :
    Times_Vector_Vector.index (observed Operand.lhs true 2 (fun _ => NA_INTEGER))
        (observed Operand.rhs true 2 (fun _ => 7)) 0
      = { value := NA_INTEGER, log := [(Operand.lhs, 0)] } :=
  (times_vector_vector_short_circuit true 2 2 (fun _ => NA_INTEGER) (fun _ => 7) 0
    (by decide) rfl).1

/-- Counterexample to C13 as stated: in the node for doubles with an NA-flagged left
operand whose element at index 0 is the NA sentinel, the evaluation of the element at index
0 calls the accessor of the right operand at index 0. -/
theorem times_vector_vector_real_counterexample :
    (observedReal Operand.lhs true 1 (fun _ => Double.NA)).get 0
      = { value := Double.NA, log := [(Operand.lhs, 0)] } ∧
    (Times_Vector_Vector_REALSXP.index (observedReal Operand.lhs true 1 (fun _ => Double.NA))
      (observedReal Operand.rhs true 1 (fun _ => Double.other)) 0).log
      = [(Operand.lhs, 0), (Operand.rhs, 0)] ∧
    (Operand.rhs, (0 : Int)) ∈
      (Times_Vector_Vector_REALSXP.index (observedReal Operand.lhs true 1 (fun _ => Double.NA))
        (observedReal Operand.rhs true 1 (fun _ => Double.other)) 0).log := by
  refine ⟨rfl, rfl, ?_⟩
  decide

/-- C15: the generic integer node `Times_Vector_Primitive` over an NA-flagged vector v and
a scalar k, at an index in range: when k is the NA sentinel the element is NA and v[i] is
not read; otherwise v[i] is read once and the element is v[i] when v[i] is NA, and the
machine product of v[i] and k when it is not. -/
theorem times_vector_primitive_generic (s : Int) (v : Int → Int) (k : Int) (i : Int)
    (_hi : 0 ≤ i ∧ i < s) :
    (k = NA_INTEGER →
      Times_Vector_Primitive.index
          (Times_Vector_Primitive.ctor (observed Operand.lhs true s v) k) i
        = { value := NA_INTEGER, log := [] }) ∧
    (k ≠ NA_INTEGER → v i = NA_INTEGER →
      Times_Vector_Primitive.index
          (Times_Vector_Primitive.ctor (observed Operand.lhs true s v) k) i
        = { value := v i, log := [(Operand.lhs, i)] }) ∧
    (k ≠ NA_INTEGER → v i ≠ NA_INTEGER →
      Times_Vector_Primitive.index
          (Times_Vector_Primitive.ctor (observed Operand.lhs true s v) k) i
        = { value := times (v i) k, log := [(Operand.lhs, i)] }) := by
  refine ⟨?_, ?_, ?_⟩
  · intro hk
    simp [Times_Vector_Primitive.index, Times_Vector_Primitive.ctor, is_na, hk, pure]
  · intro hk hv
    simp [Times_Vector_Primitive.index, Times_Vector_Primitive.ctor, observed, is_na, hk, hv,
      bind, pure]
  · intro hk hv
    simp [Times_Vector_Primitive.index, Times_Vector_Primitive.ctor, observed, is_na, hk, hv,
      bind, pure]

/-- C16: the size of every product node is the size of its vector operand: of v for
`v * k` and `k * v` (plain or `NonaPrimitive` scalar), and of the left operand a for
`a * b`, which is the common length when the two sizes are equal. -/
theorem times_size (v a b : VectorBase Id) (k : Int) :
    (operator_times_vector_primitive v k).toVectorBase.size = v.size ∧
    (operator_times_primitive_vector k v).toVectorBase.size = v.size ∧
    (operator_times_vector_nona v k).toVectorBase.size = v.size ∧
    (operator_times_nona_vector k v).toVectorBase.size = v.size ∧
    (operator_times_vector_vector a b).size = a.size ∧
    (a.size = b.size → (operator_times_vector_vector a b).size = b.size) := by
  rcases v with ⟨nv, sv, gv⟩
  rcases a with ⟨na, sa, ga⟩
  rcases b with ⟨nb, sb, gb⟩
  cases nv <;> cases na <;> cases nb <;>
    simp [operator_times_vector_primitive, operator_times_primitive_vector,
      operator_times_vector_nona, operator_times_nona_vector, operator_times_vector_vector,
      Times_Vector_Primitive.toVectorBase, Times_Vector_Primitive_nona.toVectorBase,
      Times_Vector_Primitive.ctor, Times_Vector_Primitive.size,
      Times_Vector_Primitive_nona.size, Times_Vector_Vector.size]

/-- C17: for every integer vector expression v, every scalar k that is not the NA sentinel
and every index in range, the node `Times_Vector_Primitive_nona` has the same element as
the node `Times_Vector_Primitive`, in the generic classes (v NA-flagged) and in the
specializations for `NA = false` (v flagged NA-free), hence for the class that the flag of
v selects. -/
theorem times_vector_primitive_nona_refines (v : VectorBase Id) (k : Int) (i : Int)
    (_hi : 0 ≤ i ∧ i < v.size)
    (hk : k ≠ NA_INTEGER) :
    Times_Vector_Primitive_nona.index (operator_times_vector_nona v k) i
      = Times_Vector_Primitive.index (operator_times_vector_primitive v k) i ∧
    Times_Vector_Primitive_nona.index_nona (operator_times_vector_nona v k) i
      = Times_Vector_Primitive.index_nona (operator_times_vector_primitive v k) i ∧
    (operator_times_vector_nona v k).toVectorBase.get i
      = (operator_times_vector_primitive v k).toVectorBase.get i := by
  have hk1 : is_na k = false := by simpa [is_na] using hk
  have h1 : Times_Vector_Primitive_nona.index (operator_times_vector_nona v k) i
      = Times_Vector_Primitive.index (operator_times_vector_primitive v k) i := by
    simp [Times_Vector_Primitive_nona.index, Times_Vector_Primitive.index,
      operator_times_vector_nona, operator_times_vector_primitive, Times_Vector_Primitive.ctor,
      hk1]
  have h2 : Times_Vector_Primitive_nona.index_nona (operator_times_vector_nona v k) i
      = Times_Vector_Primitive.index_nona (operator_times_vector_primitive v k) i := by
    simp [Times_Vector_Primitive_nona.index_nona, Times_Vector_Primitive.index_nona,
      operator_times_vector_nona, operator_times_vector_primitive, Times_Vector_Primitive.ctor,
      hk1]
  refine ⟨h1, h2, ?_⟩
  rcases v with ⟨nv, sv, gv⟩
  cases nv
  · exact h2
  · exact h1

/-- Witness of C15: the vector (3, 3), the scalar 5 and the index 0. -/
theorem times_vector_primitive_generic_witness :
    Times_Vector_Primitive.index
        (Times_Vector_Primitive.ctor (observed Operand.lhs true 2 (fun _ => 3)) 5) 0
      = { value := times 3 5, log := [(Operand.lhs, 0)] } :=
  (times_vector_primitive_generic 2 (fun _ => 3) 5 0 (by decide)).2.2 (by decide) (by decide)

/-- Witness of C16: the vectors (1, 2) and (3, 4) have the same size, which is the size of
their product. -/
theorem times_size_witness :
    (operator_times_vector_vector (IntegerVector [1, 2]) (IntegerVector [3, 4])).size
      = (IntegerVector [3, 4]).size :=
  (times_size (IntegerVector [1, 2]) (IntegerVector [1, 2]) (IntegerVector [3, 4]) 5).2.2.2.2.2
    (by decide)

/-- Witness of C17: the vector (3, NA), the scalar 5 and the index 1. -/
theorem times_vector_primitive_nona_refines_witness :
    Times_Vector_Primitive_nona.index
        (operator_times_vector_nona (IntegerVector [3, NA_INTEGER]) 5) 1
      = Times_Vector_Primitive.index
        (operator_times_vector_primitive (IntegerVector [3, NA_INTEGER]) 5) 1 :=
  (times_vector_primitive_nona_refines (IntegerVector [3, NA_INTEGER]) 5 1 (by decide)
    (by decide)).1

end sugar

/-! ### Dispatch: order of the conversions -/

section dispatch

variable {SEXP Err Obj Val : Type}

/-- The conversions recorded in a list of conversion events. -/
theorem conversions_convert (ks : List Nat) :
    conversions (ks.map (Event.convert : Nat → Event Val)) = ks := by
  induction ks with
  | nil => rfl
  | cons k ks ih => simpa [conversions] using ih

/-- A call of the method adds no conversion. -/
theorem conversions_append_invoke (es : List (Event Val)) (xs : List Val) :
    conversions (es ++ [Event.invoke xs]) = conversions es := by
  induction es with
  | nil => rfl
  | cons e es ih =>
    cases e with
    | convert k => simpa [conversions] using ih
    | invoke ys => simpa [conversions] using ih

/-- The declarations start the conversions of the slots `k, k+1, ...` in this order and stop
after the first one that fails. -/
theorem input_parameters_order (ip : Nat → SEXP → Except Err Val) (args : Nat → SEXP) :
    ∀ (n k : Nat), ∃ j, j ≤ n ∧
      (input_parameters ip args k n).2 = (List.range' k j).map Event.convert ∧
      (∀ i, i < n → (∃ e, ip (k + i) (args (k + i)) = Except.error e) → j ≤ i + 1) ∧
      ((∀ i, i < n → ∃ x, ip (k + i) (args (k + i)) = Except.ok x) → j = n) := by
  intro n
  induction n with
  | zero =>
    intro k
    exact ⟨0, le_refl 0, rfl, by intro i hi; omega, fun _ => rfl⟩
  | succ n ih =>
    intro k
    cases h0 : ip k (args k) with
    | error e =>
      refine ⟨1, by omega, ?_, ?_, ?_⟩
      · simp [input_parameters, h0, List.range']
      · intro i _ _
        omega
      · intro hall
        obtain ⟨x, hx⟩ := hall 0 (by omega)
        simp [h0] at hx
    | ok x =>
      obtain ⟨j, hj, hev, hfail, hall⟩ := ih (k + 1)
      refine ⟨j + 1, by omega, ?_, ?_, ?_⟩
      · have : (input_parameters ip args k (n + 1)).2
            = Event.convert k :: (input_parameters ip args (k + 1) n).2 := by
          simp only [input_parameters, h0]
          rcases input_parameters ip args (k + 1) n with ⟨r, es⟩
          cases r <;> rfl
        rw [this, hev]
        simp [List.range']
      · intro i hi hie
        cases i with
        | zero =>
          obtain ⟨e, he⟩ := hie
          simp [h0] at he
        | succ i =>
          have := hfail i (by omega) (by
            obtain ⟨e, he⟩ := hie
            refine ⟨e, ?_⟩
            have e1 : k + (i + 1) = k + 1 + i := by omega
            rw [e1] at he
            exact he)
          omega
      · intro hok
        have := hall (by
          intro i hi
          obtain ⟨y, hy⟩ := hok (i + 1) (by omega)
          refine ⟨y, ?_⟩
          have e1 : k + (i + 1) = k + 1 + i := by omega
          rw [e1] at hy
          exact hy)
        omega

end dispatch

namespace scenario

/-- C14: for the arities 2 and 3 and arrays whose slot 2 is unconvertible, the overload
cannot be instantiated (its body passes arguments to `Method`, declared with no parameter):
no dispatch exists, so no conversion is attempted, in order or otherwise. The declarations
of the body, taken alone, convert slot 1, then slot 2, and stop there. -/
theorem void_method_invoke_order_ill_formed :
    void_method_invoke 2 (wrappers [ParamType.int, ParamType.int]) count 0
      (array [Boxed.metadata, Boxed.int 1, Boxed.str "no"]) = none ∧
    void_method_invoke 3 (wrappers [ParamType.int, ParamType.int, ParamType.int]) count 0
      (array [Boxed.metadata, Boxed.int 1, Boxed.str "no", Boxed.str "no"]) = none ∧
    conversions (input_parameters (wrappers [ParamType.int, ParamType.int, ParamType.int])
      (array [Boxed.metadata, Boxed.int 1, Boxed.str "no", Boxed.str "no"]) 1 3).2
      = [1, 2] :=
  ⟨rfl, rfl, by decide⟩

end scenario

/-! ### Environment facade: reading methods and child scopes -/

namespace Environment_Impl

open scopes

/-- A deferred value is not the value it evaluates to. -/
theorem promise_ne (v : SEXP) : SEXP.promise v ≠ v := by
  intro h
  have := congrArg sizeOf h
  simp at this

/-- The value that the step returns is the value of `get`. -/
theorem get_step_value (effect : SEXP → Env → Env) (data : Env) (name : String) :
    (get_step effect data name).1 = Environment_Impl.get data name := by
  unfold get_step Environment_Impl.get
  cases Rf_findVarInFrame data name with
  | none => rfl
  | some res => by_cases h : TYPEOF res = SEXPTYPE.PROMSXP <;> simp [h]

/-- C18 (amended): when the binding of the name in the own frame does not hold a deferred
value (a promise), or holds one whose evaluation leaves the scope as it is, get leaves the
scope as it is, every binding and every lock flag included, and a second call of get right
after the first returns the same value and again leaves the scope as it is. -/
theorem get_step_unchanged (effect : SEXP → Env → Env) (data : Env) (name : String)
    (h : ∀ res, Rf_findVarInFrame data name = some res → TYPEOF res = SEXPTYPE.PROMSXP →
      effect res data = data) :
    (get_step effect data name).2 = data ∧
    (∀ m, (get_step effect data name).2.frame m = data.frame m) ∧
    isLocked (get_step effect data name).2 = isLocked data ∧
    (get_step effect (get_step effect data name).2 name).1 = (get_step effect data name).1 ∧
    (get_step effect (get_step effect data name).2 name).2 = data := by
  have h2 : (get_step effect data name).2 = data := by
    unfold get_step
    cases hf : Rf_findVarInFrame data name with
    | none => rfl
    | some res =>
      by_cases ht : TYPEOF res = SEXPTYPE.PROMSXP
      · simp [ht, h res hf ht]
      · simp [ht]
  rw [h2]
  exact ⟨rfl, fun _ => rfl, rfl, rfl, h2⟩

/-- Witness of C18 (amended): two calls of `get("a")` in the scope binding `a` to 1, with an
evaluator whose promises assign to `q`; `a` holds no promise. -/
theorem get_step_unchanged_witness :
    (get_step defines_q one "a").2 = one ∧
    (∀ m, (get_step defines_q one "a").2.frame m = one.frame m) ∧
    isLocked (get_step defines_q one "a").2 = isLocked one ∧
    (get_step defines_q (get_step defines_q one "a").2 "a").1
      = (get_step defines_q one "a").1 ∧
    (get_step defines_q (get_step defines_q one "a").2 "a").2 = one :=
  get_step_unchanged defines_q one "a" (by
    intro res hres ht
    have hr : res = SEXP.int 1 := by
      have : Rf_findVarInFrame one "a" = some (SEXP.int 1) := by decide
      rw [this] at hres
      exact (Option.some.inj hres).symm
    subst hr
    exact absurd ht (by decide))

/-- Counterexample to C18 as stated: the scope binds `p` to a deferred value that evaluates
to 5. When the code of the promise also assigns to `q`, `get("p")` returns 5 and leaves a
scope in which `q` is bound, which it was not before. When the code of the promise also
assigns 99 to `p`, the first `get("p")` returns 5 and the second one, right after, 99. -/
theorem get_step_counterexample :
    exists_ deferred "q" = false ∧
    (get_step defines_q deferred "p").1 = Except.ok (SEXP.int 5) ∧
    exists_ (get_step defines_q deferred "p").2 "q" = true ∧
    (get_step rebinds_p deferred "p").1 = Except.ok (SEXP.int 5) ∧
    (get_step rebinds_p (get_step rebinds_p deferred "p").2 "p").1
      = Except.ok (SEXP.int 99) := by
  decide

/-- C19: when the binding of the name in the own frame (for get), or in the nearest scope of
the chain that binds it (for find), holds a deferred value (a promise), the method returns
the result of evaluating it and not the promise; a bound value that is not a promise is
returned as it is. -/
theorem get_find_force (data : Env) (name : String) :
    (∀ c v, data.frame name = some c → c.value = SEXP.promise v →
      Environment_Impl.get data name = Except.ok (Rf_eval c.value data) ∧
      Environment_Impl.get data name = Except.ok v ∧
      Environment_Impl.get data name ≠ Except.ok c.value) ∧
    (∀ c, data.frame name = some c → TYPEOF c.value ≠ SEXPTYPE.PROMSXP →
      Environment_Impl.get data name = Except.ok c.value) ∧
    (∀ (pre : List Frame) (f : Frame) (post : List Frame) (c : Cell) (v : SEXP),
      data.chain = pre ++ f :: post → (∀ g ∈ pre, g name = none) → f name = some c →
      c.value = SEXP.promise v →
      find data name = Except.ok (Rf_eval c.value data) ∧
      find data name = Except.ok v ∧
      find data name ≠ Except.ok c.value) ∧
    (∀ (pre : List Frame) (f : Frame) (post : List Frame) (c : Cell),
      data.chain = pre ++ f :: post → (∀ g ∈ pre, g name = none) → f name = some c →
      TYPEOF c.value ≠ SEXPTYPE.PROMSXP →
      find data name = Except.ok c.value) := by
  refine ⟨?_, ?_, ?_, ?_⟩
  · intro c v hc hv
    have hg : Environment_Impl.get data name = Except.ok v := by
      simp [Environment_Impl.get, findVarInFrame_eq, hc, hv, TYPEOF, Rf_eval]
    refine ⟨by rw [hg, hv]; rfl, hg, ?_⟩
    rw [hg, hv]
    intro h
    exact promise_ne v (Except.ok.inj h).symm
  · intro c hc ht
    simp [Environment_Impl.get, findVarInFrame_eq, hc, ht]
  · intro pre f post c v hchain hpre hf hv
    have hg : find data name = Except.ok v := by
      simp [find, findVar_nearest name c f post pre data hchain hpre hf, hv, TYPEOF, Rf_eval]
    refine ⟨by rw [hg, hv]; rfl, hg, ?_⟩
    rw [hg, hv]
    intro h
    exact promise_ne v (Except.ok.inj h).symm
  · intro pre f post c hchain hpre hf ht
    simp [find, findVar_nearest name c f post pre data hchain hpre hf, ht]

/-- C20: `new_child(hashed)` on a scope e calls the evaluator with `new.env(hashed, e)`, e
being the argument for the formal `parent`; when that call succeeds, with an evaluator that
keeps the contract of `new.env`, the new handle holds the scope returned and its `parent()`
is a handle on e itself. -/
theorem new_child_parent (R : Lang → Except String RObject) (e : Env) (hashed : Bool)
    (res : RObject) (hR : NewEnvContract R)
    (hcall : Rcpp_eval R
      (Rf_lang3 "new.env" (Rf_ScalarLogical hashed) (RObject.environment e)) = Except.ok res) :
    new_env_parent (Rf_lang3 "new.env" (Rf_ScalarLogical hashed) (RObject.environment e))
      = some (RObject.environment e) ∧
    new_child R e hashed = Except.ok res ∧
    ∃ child, res = RObject.environment child ∧
      parent R child = Except.ok (RObject.environment e) := by
  have hRcall : R (Rf_lang3 "new.env" (Rf_ScalarLogical hashed) (RObject.environment e))
      = Except.ok res := by
    unfold Rcpp_eval at hcall
    cases h : R (Rf_lang3 "new.env" (Rf_ScalarLogical hashed) (RObject.environment e)) with
    | ok r =>
      rw [h] at hcall
      simpa using hcall
    | error msg =>
      rw [h] at hcall
      simp at hcall
  obtain ⟨frame, locked, hres⟩ :=
    hR (Rf_lang3 "new.env" (Rf_ScalarLogical hashed) (RObject.environment e)) res e rfl rfl
      hRcall
  refine ⟨rfl, ?_, Env.scope frame locked e, hres, rfl⟩
  unfold new_child
  rw [hcall, hres]
  rfl

/-- The evaluator of the examples keeps the contract of `new.env`. -/
theorem evaluator_contract : NewEnvContract evaluator := by
  intro call res parent hfn hparent hres
  rcases call with ⟨fn, args⟩
  simp only at hfn
  subst hfn
  simp only [new_env_parent] at hparent
  match args, hparent with
  | [a, b], hp =>
    simp at hp
    subst hp
    simp [evaluator] at hres
    exact ⟨noBindings, false, hres.symm⟩
  | a :: b :: c :: rest, hp =>
    simp at hp
    subst hp
    simp [evaluator] at hres

/-- Witness of C20: a child of the scope binding `a` to 1. -/
theorem new_child_parent_witness :
    new_child evaluator one true
      = Except.ok (RObject.environment (Env.scope noBindings false one)) ∧
    ∃ child, RObject.environment (Env.scope noBindings false one) = RObject.environment child ∧
      parent evaluator child = Except.ok (RObject.environment one) :=
  (new_child_parent evaluator one true (RObject.environment (Env.scope noBindings false one))
    evaluator_contract rfl).2

/-- Witness of C19: the scope binding `p` to a deferred value that evaluates to 5. -/
theorem get_find_force_witness :
    Environment_Impl.get deferred "p" = Except.ok (Rf_eval (SEXP.promise (SEXP.int 5)) deferred) ∧
    Environment_Impl.get deferred "p" = Except.ok (SEXP.int 5) ∧
    Environment_Impl.get deferred "p" ≠ Except.ok (SEXP.promise (SEXP.int 5)) :=
  (get_find_force deferred "p").1
    { value := SEXP.promise (SEXP.int 5), locked := false, active := false } (SEXP.int 5)
    (by decide) rfl

end Environment_Impl

/-! ### Environment facade: handles from names, positions, packages and boxed values -/

namespace Environment_Impl

open scopes

/-- C21: for every package name, namespace_env fails with no_such_namespace exactly when the
evaluator call `getNamespace(name)` raises an evaluation error, and the exception then
carries that name; when the evaluator returns a scope, the handle holds that scope. -/
theorem namespace_env_outcomes (R : Lang → Except String RObject) (package : String) :
    (namespace_env R package = Except.error (Exception.no_such_namespace package)
      ↔ ∃ message, R (Rf_lang2 "getNamespace" (Rf_mkString package)) = Except.error message) ∧
    (∀ p, namespace_env R package = Except.error (Exception.no_such_namespace p) →
      p = package) ∧
    (∀ e, R (Rf_lang2 "getNamespace" (Rf_mkString package))
        = Except.ok (RObject.environment e) →
      namespace_env R package = Except.ok (RObject.environment e)) := by
  unfold namespace_env Rcpp_eval
  cases h : R (Rf_lang2 "getNamespace" (Rf_mkString package)) with
  | error msg => simp
  | ok env =>
    cases env with
    | environment e => simp [Environment, as_environment]
    | logical b =>
      simp only [Environment, as_environment, Rcpp_eval]
      cases R (Rf_lang2 "as.environment" (RObject.logical b)) <;> simp
    | value x =>
      simp only [Environment, as_environment, Rcpp_eval]
      cases R (Rf_lang2 "as.environment" (RObject.value x)) <;> simp

/-- Witness of C21: the evaluator of the examples knows the package `stats`. -/
theorem namespace_env_outcomes_witness :
    namespace_env registry "stats" = Except.ok (RObject.environment one) :=
  (namespace_env_outcomes registry "stats").2.2 one rfl

/-- C22: whatever the evaluator is, the handle made from the name ".GlobalEnv" holds the
global scope and the handle made from "package:base" holds the base scope, so the evaluator
is not consulted; for any other name, and for any integer position, the constructor
evaluates `as.environment` of the boxed name or position, holds what the evaluator returns,
and fails with no_such_env exactly when that call raises an evaluation error. -/
theorem ctor_outcomes (G B : Env) (R : Lang → Except String RObject) :
    ctor_name G B R ".GlobalEnv" = Except.ok (RObject.environment G) ∧
    ctor_name G B R "package:base" = Except.ok (RObject.environment B) ∧
    (∀ name, name ≠ ".GlobalEnv" → name ≠ "package:base" →
      (ctor_name G B R name = Except.error (Exception.no_such_env name)
        ↔ ∃ message, R (Rf_lang2 "as.environment" (Rf_mkString name))
            = Except.error message) ∧
      (∀ res, R (Rf_lang2 "as.environment" (Rf_mkString name)) = Except.ok res →
        ctor_name G B R name = Except.ok res)) ∧
    (∀ pos : Int,
      (ctor_pos R pos = Except.error (Exception.no_such_env (toString pos))
        ↔ ∃ message, R (Rf_lang2 "as.environment" (Rf_ScalarInteger pos))
            = Except.error message) ∧
      (∀ res, R (Rf_lang2 "as.environment" (Rf_ScalarInteger pos)) = Except.ok res →
        ctor_pos R pos = Except.ok res)) := by
  refine ⟨rfl, rfl, ?_, ?_⟩
  · intro name h1 h2
    unfold ctor_name Rcpp_eval
    simp only [h1, h2, if_false]
    cases R (Rf_lang2 "as.environment" (Rf_mkString name)) <;> simp
  · intro pos
    unfold ctor_pos Rcpp_eval
    cases R (Rf_lang2 "as.environment" (Rf_ScalarInteger pos)) <;> simp

/-- Witness of C22: the name `package:stats` with the evaluator of the examples. -/
theorem ctor_outcomes_witness :
    ctor_name fresh fresh registry "package:stats" = Except.ok (RObject.environment one) :=
  ((ctor_outcomes fresh fresh registry).2.2.1 "package:stats" (by decide) (by decide)).2
    (RObject.environment one) rfl

/-- C23: when x is already a scope, set stores x itself whatever the evaluator is, so the
evaluator is not consulted; otherwise set stores the result of the evaluator call
`as.environment(x)`, and it fails with not_compatible exactly when that call raises an
evaluation error, in which case the scope stored in the handle is left as it was. -/
theorem set_outcomes (R : Lang → Except String RObject) (data x : RObject) :
    (∀ e, x = RObject.environment e → set R data x = (Except.ok (), x)) ∧
    ((∀ e, x ≠ RObject.environment e) →
      (∀ res, R (Rf_lang2 "as.environment" x) = Except.ok res →
        set R data x = (Except.ok (), res)) ∧
      ((∃ message, (set R data x).1 = Except.error (Exception.not_compatible message))
        ↔ ∃ message, R (Rf_lang2 "as.environment" x) = Except.error message) ∧
      ((∃ message, R (Rf_lang2 "as.environment" x) = Except.error message) →
        (set R data x).2 = data)) := by
  constructor
  · intro e he
    subst he
    rfl
  · intro hx
    cases x with
    | environment e => exact absurd rfl (hx e)
    | logical b =>
      simp only [set, as_environment, Rcpp_eval]
      cases R (Rf_lang2 "as.environment" (RObject.logical b)) <;> simp
    | value v =>
      simp only [set, as_environment, Rcpp_eval]
      cases R (Rf_lang2 "as.environment" (RObject.value v)) <;> simp

/-- Witness of C23: a boxed integer 2, which the evaluator of the examples converts to the
fresh scope. -/
theorem set_outcomes_witness :
    set registry (RObject.environment one) (RObject.value (SEXP.int 2))
      = (Except.ok (), RObject.environment fresh) :=
  ((set_outcomes registry (RObject.environment one) (RObject.value (SEXP.int 2))).2
    (fun _ h => RObject.noConfusion h)).1 (RObject.environment fresh) rfl

end Environment_Impl

/-! ### Dispatch: slots read -/

section dispatch

variable {SEXP Err Obj Val : Type}

/-- The declarations read the slots `k, ..., k+n-1` only. -/
theorem input_parameters_congr (ip : Nat → SEXP → Except Err Val) (args args2 : Nat → SEXP) :
    ∀ (n k : Nat), (∀ i, i < n → args (k + i) = args2 (k + i)) →
      input_parameters ip args k n = input_parameters ip args2 k n := by
  intro n
  induction n with
  | zero =>
    intro k _
    rfl
  | succ n ih =>
    intro k h
    have h0 : args k = args2 k := by
      have := h 0 (by omega)
      simpa using this
    have hrest : ∀ i, i < n → args (k + 1 + i) = args2 (k + 1 + i) := by
      intro i hi
      have := h (i + 1) (by omega)
      have e1 : k + (i + 1) = k + 1 + i := by omega
      rw [e1] at this
      exact this
    simp only [input_parameters, h0, ih (k + 1) hrest]

end dispatch

namespace scenario

/-- C24: the overload of arity 0 gives the same outcome for every argument array and
reads no slot; the overload of arity 1 cannot be instantiated (its body passes one argument
to `Method`, declared with no parameter), so it has no outcome that the slots of the array
could determine. -/
theorem void_method_invoke_slots_arity_zero :
    (∀ args args2 : Nat → Boxed,
      void_method_invoke 0 (wrappers []) count 0 args
        = void_method_invoke 0 (wrappers []) count 0 args2) ∧
    (∀ args : Nat → Boxed,
      void_method_invoke 0 (wrappers []) count 0 args
        = some { result := Except.ok (), object := 1, events := [Event.invoke []] }) ∧
    void_method_invoke 1 (wrappers [ParamType.int]) count 0
      (array [Boxed.metadata, Boxed.int 1]) = none :=
  ⟨fun _ _ => rfl, fun _ => rfl, rfl⟩

end scenario

/-! ### Sugar: specializations and the value of the sentinel -/

namespace sugar

open traits

/-- C25: in the node for two operands flagged NA-free the element at every index in range
is the machine product of a[i] and b[i], with no test for NA, whatever the elements are;
the node itself is flagged NA-free. -/
theorem times_vector_vector_nona_product (a b : VectorBase Id) (i : Int)
    (_hi : 0 ≤ i ∧ i < a.size)
    (ha : a.NA = false) (hb : b.NA = false) :
    Times_Vector_Vector.index_nona a b i = times (a.get i) (b.get i) ∧
    (operator_times_vector_vector a b).get i = times (a.get i) (b.get i) ∧
    (operator_times_vector_vector a b).NA = false := by
  rcases a with ⟨na, sa, ga⟩
  rcases b with ⟨nb, sb, gb⟩
  simp only at ha hb
  subst ha
  subst hb
  exact ⟨rfl, rfl, rfl⟩

/-- Witness of C25: an element with the value of the NA sentinel times 2 is 0 modulo 2^32,
not NA. -/
theorem times_vector_vector_nona_product_witness :
    Times_Vector_Vector.index_nona
        ({ NA := false, size := 1, get := fun _ => NA_INTEGER } : VectorBase Id)
        ({ NA := false, size := 1, get := fun _ => 2 } : VectorBase Id) 0 = 0 ∧
    Times_Vector_Vector.index_nona
        ({ NA := false, size := 1, get := fun _ => NA_INTEGER } : VectorBase Id)
        ({ NA := false, size := 1, get := fun _ => 2 } : VectorBase Id) 0
      = times NA_INTEGER 2 :=
  ⟨by decide,
    (times_vector_vector_nona_product { NA := false, size := 1, get := fun _ => NA_INTEGER }
      { NA := false, size := 1, get := fun _ => 2 } 0 (by decide) rfl rfl).1⟩

/-- C26: the integer elements 65536 and -32768 are not the NA sentinel and their product
is -2^31, the value of the sentinel: the generic node returns it, the node is NA-flagged,
and an enclosing generic node that has this product as its left or right operand returns
NA at that index whatever its other operand holds. -/
theorem times_sentinel_collision :
    ((IntegerVector [65536]).get 0 : Int) ≠ NA_INTEGER ∧
    ((IntegerVector [-32768]).get 0 : Int) ≠ NA_INTEGER ∧
    (65536 : Int) * (-32768) = -2147483648 ∧
    Times_Vector_Vector.index (IntegerVector [65536]) (IntegerVector [-32768]) 0 = NA_INTEGER ∧
    (operator_times_vector_vector (IntegerVector [65536]) (IntegerVector [-32768])).NA = true ∧
    (∀ c : VectorBase Id,
      Times_Vector_Vector.index
        (operator_times_vector_vector (IntegerVector [65536]) (IntegerVector [-32768])) c 0
          = NA_INTEGER ∧
      Times_Vector_Vector.index c
        (operator_times_vector_vector (IntegerVector [65536]) (IntegerVector [-32768])) 0
          = NA_INTEGER) := by
  refine ⟨by decide, by decide, by decide, by decide, rfl, ?_⟩
  intro c
  have hp : (operator_times_vector_vector (IntegerVector [65536])
      (IntegerVector [-32768])).get 0 = NA_INTEGER := by decide
  have hna : is_na NA_INTEGER = true := rfl
  constructor
  · simp [Times_Vector_Vector.index, bind, pure, hp, hna]
  · by_cases hc : is_na (c.get 0) = true
    · have hc1 : c.get 0 = NA_INTEGER := by simpa [is_na] using hc
      simp [Times_Vector_Vector.index, bind, pure, hc1, hna]
    · simp [Times_Vector_Vector.index, bind, pure, hp, hna, hc]

/-- C27: at an index in range where the operand declared NA-free holds an element that is
not NA, each of the three specializations (`LHS_NA = false`, which tests b[i] first;
`RHS_NA = false`; both false) returns what the generic node returns. -/
theorem times_specializations_agree (a b : VectorBase Id) (i : Int) (_hi : 0 ≤ i ∧ i < a.size) :
    (a.get i ≠ NA_INTEGER →
      Times_Vector_Vector.index_lhs_nona a b i = Times_Vector_Vector.index a b i) ∧
    (b.get i ≠ NA_INTEGER →
      Times_Vector_Vector.index_rhs_nona a b i = Times_Vector_Vector.index a b i) ∧
    (a.get i ≠ NA_INTEGER → b.get i ≠ NA_INTEGER →
      Times_Vector_Vector.index_nona a b i = Times_Vector_Vector.index a b i) := by
  refine ⟨?_, ?_, ?_⟩
  · intro ha
    have ha1 : is_na (a.get i) = false := by simpa [is_na] using ha
    simp [Times_Vector_Vector.index_lhs_nona, Times_Vector_Vector.index, bind, pure, ha1]
  · intro hb
    have hb1 : is_na (b.get i) = false := by simpa [is_na] using hb
    simp [Times_Vector_Vector.index_rhs_nona, Times_Vector_Vector.index, bind, pure, hb1]
  · intro ha hb
    have ha1 : is_na (a.get i) = false := by simpa [is_na] using ha
    have hb1 : is_na (b.get i) = false := by simpa [is_na] using hb
    simp [Times_Vector_Vector.index_nona, Times_Vector_Vector.index, bind, pure, ha1, hb1]

/-- Witness of C27: the vectors (3) and (NA) at index 0, the left one declared NA-free. -/
theorem times_specializations_agree_witness :
    Times_Vector_Vector.index_lhs_nona (IntegerVector [3]) (IntegerVector [NA_INTEGER]) 0
      = Times_Vector_Vector.index (IntegerVector [3]) (IntegerVector [NA_INTEGER]) 0 :=
  (times_specializations_agree (IntegerVector [3]) (IntegerVector [NA_INTEGER]) 0
    (by decide)).1 (by decide)

end sugar

/-! ### Environment facade: what a call leaves as it was -/

namespace Environment_Impl

open scopes

/-- What the methods report about a name depends on its binding in the own frame only. -/
theorem observations_congr (d1 d2 : Env) (m : String) (h : d1.frame m = d2.frame m) :
    exists_ d1 m = exists_ d2 m ∧
    Environment_Impl.get d1 m = Environment_Impl.get d2 m ∧
    bindingIsLocked d1 m = bindingIsLocked d2 m ∧
    bindingIsActive d1 m = bindingIsActive d2 m := by
  have he : exists_ d1 m = exists_ d2 m := by rw [exists_eq, exists_eq, h]
  refine ⟨he, ?_, ?_, ?_⟩
  · simp only [Environment_Impl.get, findVarInFrame_eq, h]
    cases d2.frame m with
    | none => rfl
    | some c =>
      simp only [Option.map]
      cases c.value <;> rfl
  · simp only [bindingIsLocked, he, R_BindingIsLocked, h]
  · simp only [bindingIsActive, he, R_BindingIsActive, h]

/-- An assign that throws leaves the scope as it was. -/
theorem assign_error_unchanged (data : Env) (name : String) (x : SEXP) (e : Error)
    (h : (assign data name x).1 = Except.error e) : (assign data name x).2 = data := by
  unfold assign at h ⊢
  split at h <;> try rfl
  split at h <;> try rfl
  simp at h

/-- C28: when assign fails with binding_is_locked the scope is the same as before: the
name keeps its binding, which is locked, get returns what it returned, and no binding of
any name is created or modified. -/
theorem assign_locked_unchanged (data : Env) (name : String) (x : SEXP)
    (h : (assign data name x).1 = Except.error (Error.binding_is_locked name)) :
    (assign data name x).2 = data ∧
    (∃ c, data.frame name = some c ∧ c.locked = true ∧
      (assign data name x).2.frame name = some c) ∧
    bindingIsLocked (assign data name x).2 name = Except.ok true ∧
    Environment_Impl.get (assign data name x).2 name = Environment_Impl.get data name ∧
    (∀ m, (assign data name x).2.frame m = data.frame m) := by
  have hsame := assign_error_unchanged data name x _ h
  rw [hsame]
  refine ⟨rfl, ?_, ?_, rfl, fun _ => rfl⟩
  · cases data with
    | empty =>
      simp [assign, exists_, Rf_findVarInFrame, Rf_defineVar] at h
    | scope frame locked enclos =>
      cases hf : frame name with
      | none =>
        cases locked <;>
          simp [assign, exists_, Rf_findVarInFrame, Rf_defineVar, hf] at h
      | some c =>
        rcases c with ⟨v, l, a⟩
        cases l
        · simp [assign, exists_, Rf_findVarInFrame, Rf_defineVar, hf, bindingIsLocked,
            R_BindingIsLocked, Env.frame] at h
        · exact ⟨_, hf, rfl, hf⟩
  · cases data with
    | empty =>
      simp [assign, exists_, Rf_findVarInFrame, Rf_defineVar] at h
    | scope frame locked enclos =>
      cases hf : frame name with
      | none =>
        cases locked <;>
          simp [assign, exists_, Rf_findVarInFrame, Rf_defineVar, hf] at h
      | some c =>
        rcases c with ⟨v, l, a⟩
        cases l
        · simp [assign, exists_, Rf_findVarInFrame, Rf_defineVar, hf, bindingIsLocked,
            R_BindingIsLocked, Env.frame] at h
        · simp [bindingIsLocked, exists_, Rf_findVarInFrame, hf, R_BindingIsLocked, Env.frame]

/-- Witness of C28: the scope binding `a` to 1, with `a` locked, and the value 2. -/
theorem assign_locked_unchanged_witness :
    (assign (lockBinding one "a").2 "a" (SEXP.int 2)).2 = (lockBinding one "a").2 :=
  (assign_locked_unchanged (lockBinding one "a").2 "a" (SEXP.int 2) (by decide)).1

/-- An assign to a name leaves the bindings of the other names. -/
theorem assign_frame_other (data : Env) (n m : String) (x : SEXP) (hnm : n ≠ m) :
    (assign data n x).2.frame m = data.frame m := by
  cases data with
  | empty => simp [assign, exists_, Rf_findVarInFrame, Rf_defineVar]
  | scope frame locked enclos =>
    have hmn : m ≠ n := fun h => hnm h.symm
    cases hf : frame n with
    | none =>
      cases locked <;>
        simp [assign, exists_, Rf_findVarInFrame, Rf_defineVar, hf, Env.frame,
          Function.update_noteq hmn]
    | some c =>
      rcases c with ⟨v, l, a⟩
      cases l <;>
        simp [assign, exists_, Rf_findVarInFrame, Rf_defineVar, hf, Env.frame,
          bindingIsLocked, R_BindingIsLocked, Function.update_noteq hmn]

/-- Locking or unlocking a binding changes the lock flag of that binding only. -/
theorem setBindingLock_frame (flag : Bool) (data data1 : Env) (n : String)
    (h : R_setBindingLock flag n data = Except.ok data1) :
    (∀ m, n ≠ m → data1.frame m = data.frame m) ∧
    ∃ c, data.frame n = some c ∧ data1.frame n = some { c with locked := flag } := by
  cases data with
  | empty => simp [R_setBindingLock] at h
  | scope frame locked enclos =>
    cases hf : frame n with
    | none => simp [R_setBindingLock, hf] at h
    | some c =>
      simp only [R_setBindingLock, hf, Except.ok.injEq] at h
      subst h
      refine ⟨?_, c, ?_⟩
      · intro m hnm
        have hmn : m ≠ n := fun h => hnm h.symm
        simp [Env.frame, Function.update_noteq hmn]
      · simp [Env.frame, hf]

/-- The value that get returns depends on the value bound only. -/
theorem get_of_frame (d1 d2 : Env) (n : String) (c1 c2 : Cell) (h1 : d1.frame n = some c1)
    (h2 : d2.frame n = some c2) (hv : c1.value = c2.value) :
    Environment_Impl.get d1 n = Environment_Impl.get d2 n := by
  simp only [Environment_Impl.get, findVarInFrame_eq, h1, h2, Option.map, hv]
  cases c2.value <;> rfl

/-- A lockBinding or unlockBinding that returns has run the primitive of the runtime. -/
theorem lock_steps (data : Env) (n : String) :
    ((lockBinding data n).1 = Except.ok () →
      R_LockBinding n data = Except.ok (lockBinding data n).2) ∧
    ((unlockBinding data n).1 = Except.ok () →
      R_unLockBinding n data = Except.ok (unlockBinding data n).2) := by
  constructor
  · intro h
    unfold lockBinding at h ⊢
    split at h
    · simp at h
    · split at h
      · simp at h
      · simp [*]
  · intro h
    unfold unlockBinding at h ⊢
    split at h
    · simp at h
    · split at h
      · simp at h
      · simp [*]

/-- C29: for distinct names n and m, a successful assign(n, x), lockBinding(n) or
unlockBinding(n) leaves the binding of m as it was: exists(m), get(m) and the lock flag of m
are the same before and after; lockBinding and unlockBinding also leave get(n) as it
was. -/
theorem frame_effect (data : Env) (n m : String) (x : SEXP) (hnm : n ≠ m) :
    ((assign data n x).1 = Except.ok true →
      exists_ (assign data n x).2 m = exists_ data m ∧
      Environment_Impl.get (assign data n x).2 m = Environment_Impl.get data m ∧
      bindingIsLocked (assign data n x).2 m = bindingIsLocked data m ∧
      (assign data n x).2.frame m = data.frame m) ∧
    ((lockBinding data n).1 = Except.ok () →
      exists_ (lockBinding data n).2 m = exists_ data m ∧
      Environment_Impl.get (lockBinding data n).2 m = Environment_Impl.get data m ∧
      bindingIsLocked (lockBinding data n).2 m = bindingIsLocked data m ∧
      (lockBinding data n).2.frame m = data.frame m ∧
      Environment_Impl.get (lockBinding data n).2 n = Environment_Impl.get data n) ∧
    ((unlockBinding data n).1 = Except.ok () →
      exists_ (unlockBinding data n).2 m = exists_ data m ∧
      Environment_Impl.get (unlockBinding data n).2 m = Environment_Impl.get data m ∧
      bindingIsLocked (unlockBinding data n).2 m = bindingIsLocked data m ∧
      (unlockBinding data n).2.frame m = data.frame m ∧
      Environment_Impl.get (unlockBinding data n).2 n = Environment_Impl.get data n) := by
  refine ⟨?_, ?_, ?_⟩
  · intro _
    have hf := assign_frame_other data n m x hnm
    obtain ⟨h1, h2, h3, _⟩ := observations_congr _ _ m hf
    exact ⟨h1, h2, h3, hf⟩
  · intro h
    obtain ⟨hother, c, hc, hc1⟩ := setBindingLock_frame true data _ n ((lock_steps data n).1 h)
    have hf := hother m hnm
    obtain ⟨h1, h2, h3, _⟩ := observations_congr _ _ m hf
    exact ⟨h1, h2, h3, hf, get_of_frame _ _ n _ _ hc1 hc rfl⟩
  · intro h
    obtain ⟨hother, c, hc, hc1⟩ :=
      setBindingLock_frame false data _ n ((lock_steps data n).2 h)
    have hf := hother m hnm
    obtain ⟨h1, h2, h3, _⟩ := observations_congr _ _ m hf
    exact ⟨h1, h2, h3, hf, get_of_frame _ _ n _ _ hc1 hc rfl⟩

/-- Witness of C29: assigning to `b` in the scope binding `a` to 1 leaves get of `a`. -/
theorem frame_effect_witness :
    Environment_Impl.get (assign one "b" (SEXP.int 2)).2 "a" = Environment_Impl.get one "a" :=
  ((frame_effect one "b" "a" (SEXP.int 2) (by decide)).1 (by decide)).2.1

/-- C30 (amended): exists is false exactly when the name is unbound in the own frame of the
scope, and get then returns nil; but get does not decide existence: after an assign of nil
to the name that has returned true, exists is true while get still returns nil. That assign
returns true on an unlocked name when the name is already bound, or when the scope is
neither the empty scope nor locked as a whole. -/
theorem exists_vs_get (data : Env) (name : String) :
    (exists_ data name = false ↔ data.frame name = none) ∧
    (exists_ data name = false → Environment_Impl.get data name = Except.ok SEXP.nil) ∧
    ((assign data name SEXP.nil).1 = Except.ok true →
      exists_ (assign data name SEXP.nil).2 name = true ∧
      Environment_Impl.get (assign data name SEXP.nil).2 name = Except.ok SEXP.nil) ∧
    ((∀ c, data.frame name = some c → c.locked = false) →
      (data.frame name ≠ none ∨ (data ≠ Env.empty ∧ isLocked data = false)) →
      (assign data name SEXP.nil).1 = Except.ok true) := by
  have hex : exists_ data name = false ↔ data.frame name = none := by
    rw [exists_eq]
    cases data.frame name <;> simp
  refine ⟨hex, ?_, ?_, ?_⟩
  · intro h
    simp [Environment_Impl.get, findVarInFrame_eq, hex.1 h]
  · cases data with
    | empty => simp [assign, exists_, Rf_findVarInFrame, Rf_defineVar]
    | scope frame locked enclos =>
      cases hf : frame name with
      | none =>
        cases locked <;>
          simp [assign, exists_, Rf_findVarInFrame, Rf_defineVar, hf, Environment_Impl.get,
            TYPEOF]
      | some c =>
        rcases c with ⟨v, l, a⟩
        cases l <;>
          simp [assign, exists_, Rf_findVarInFrame, Rf_defineVar, hf, Environment_Impl.get,
            TYPEOF, bindingIsLocked, R_BindingIsLocked, Env.frame]
  · cases data with
    | empty => simp [Env.frame]
    | scope frame locked enclos =>
      cases hf : frame name with
      | none =>
        cases locked <;>
          simp [assign, exists_, Rf_findVarInFrame, Rf_defineVar, hf, Env.frame, isLocked,
            R_EnvironmentIsLocked]
      | some c =>
        rcases c with ⟨v, l, a⟩
        cases l <;>
          simp [assign, exists_, Rf_findVarInFrame, Rf_defineVar, hf, Env.frame, isLocked,
            R_EnvironmentIsLocked, bindingIsLocked, R_BindingIsLocked]

/-- Witness of C30 (amended): assigning nil to `a` in the scope binding `a` to 1. -/
theorem exists_vs_get_witness :
    exists_ (assign one "a" SEXP.nil).2 "a" = true ∧
      Environment_Impl.get (assign one "a" SEXP.nil).2 "a" = Except.ok SEXP.nil :=
  (exists_vs_get one "a").2.2.1 (by decide)

/-- Counterexample to C30 as stated: in a fresh scope locked as a whole by `lock(false)`
the name `a` is unbound, hence not locked; assign of nil to `a` fails with the error of the
host runtime and exists is false afterwards. -/
theorem exists_vs_get_counterexample :
    (lock fresh false).2.frame "a" = none ∧
    (assign (lock fresh false).2 "a" SEXP.nil).1
      = Except.error (Error.r_error "cannot add bindings to a locked environment") ∧
    exists_ (assign (lock fresh false).2 "a" SEXP.nil).2 "a" = false := by
  decide
end Environment_Impl

end Rcpp
